import Mathlib

/-!
GitGo: profile statistics, snapshot cache and badge renderer

A shallow embedding of the server in `src/index.js` (the files under `src/api/` carry
textual copies of the same handler and helper bodies).

Modelling conventions, all read off the source:

* A JavaScript object is the list of its own properties in enumeration order, with
  pairwise distinct string keys (`JSObject`): array-index names first, in ascending
  order, then the other names in the order of their creation. A property read with a
  computed name also finds the members inherited from `Object.prototype` (for an array,
  from `Array.prototype`), which are functions, and the accessor `__proto__`; an
  assignment to `__proto__` runs the inherited setter and creates no own property.
* The in-memory `statsCache` is a JavaScript `Map`: insertion-ordered, one entry per key
  (`StatsCache`).
* Numbers are integers; `Date.now()` and the locale time string are inputs of the
  functions that read them, upstream responses are inputs of the handlers.
* A statement that throws makes the function return `Except.error`.
-/

namespace GitGo

/-! ## Values and objects -/

/-- The values a record field can hold. `raw` stands for any other value (a number with
a fraction, an array, a nested object, a function), kept as the text that string
conversion gives. -/
inductive JSValue where
  | undefined
  | null
  | bool (b : Bool)
  | num (n : Int)
  | str (s : String)
  | raw (text : String)
  deriving DecidableEq, Repr

/-- String conversion of a value inside a template literal. -/
def JSValue.toText : JSValue → String
  | .undefined => "undefined"
  | .null => "null"
  | .bool true => "true"
  | .bool false => "false"
  | .num n => toString n
  | .str s => s
  | .raw text => text

/-- Keys of an association list, in order. -/
def assocKeys {β : Type} (l : List (String × β)) : List String :=
  l.map Prod.fst

/-- First binding of `k`, if any. -/
def assocGet {β : Type} (k : String) : List (String × β) → Option β
  | [] => none
  | (k', v) :: rest => if k' = k then some v else assocGet k rest

/-- Property assignment on an ordered map: an existing key keeps its position and takes
the new value, a new key is appended. -/
def assocSet {β : Type} (k : String) (v : β) : List (String × β) → List (String × β)
  | [] => [(k, v)]
  | (k', v') :: rest => if k' = k then (k, v) :: rest else (k', v') :: assocSet k v rest

/-- Removal of a key from an ordered map. -/
def assocDelete {β : Type} (k : String) (l : List (String × β)) : List (String × β) :=
  l.filter (fun kv => kv.1 ≠ k)

/-- Reads a run of decimal digits as a number; `none` when a character is not a digit. -/
def parseDigits : List Char → Nat → Option Nat
  | [], acc => some acc
  | c :: rest, acc =>
    if c.isDigit then parseDigits rest (acc * 10 + (c.toNat - 48)) else none

/-- The number a property name denotes when it is a decimal numeral without leading
zero. -/
def arrayIndex (key : String) : Option Nat :=
  match key.data with
  | [] => none
  | [c] => if c.isDigit then some (c.toNat - 48) else none
  | c :: rest => if c = '0' then none else parseDigits (c :: rest) 0

/-- The array index of a property name: a numeral below `2^32 - 1`. Such names are
enumerated first, in ascending order. -/
def propertyIndex (key : String) : Option Nat :=
  match arrayIndex key with
  | some n => if n < 4294967295 then some n else none
  | none => none

/-- Whether the name `key` is an array index smaller than `n`. -/
def indexBelow (n : Nat) (key : String) : Bool :=
  match propertyIndex key with
  | some m => decide (m < n)
  | none => false

/-- Creation of a property named by the array index `n`: it goes after the array-index
names smaller than `n`, before everything else. -/
def insertIndexed {β : Type} (n : Nat) (k : String) (v : β) :
    List (String × β) → List (String × β)
  | [] => [(k, v)]
  | (k', v') :: rest =>
    if indexBelow n k' then (k', v') :: insertIndexed n k v rest
    else (k, v) :: (k', v') :: rest

/-- Definition of an own property of an object: an existing key keeps its position and
takes the new value; a new array-index name is placed among the array-index names, any
other new name is appended. -/
def objectDefine {β : Type} (k : String) (v : β) (l : List (String × β)) :
    List (String × β) :=
  if k ∈ assocKeys l then assocSet k v l
  else
    match propertyIndex k with
    | some n => insertIndexed n k v l
    | none => l ++ [(k, v)]

/-! Property definition and removal keep the keys pairwise distinct; the object and map
types below rely on it. -/

theorem assocKeys_set {β : Type} (k : String) (v : β) (l : List (String × β)) :
    assocKeys (assocSet k v l) = if k ∈ assocKeys l then assocKeys l else assocKeys l ++ [k] := by
  induction l with
  | nil => simp [assocKeys, assocSet]
  | cons kv rest ih =>
    obtain ⟨k', v'⟩ := kv
    by_cases h : k' = k
    · subst h; simp [assocKeys, assocSet]
    · have h' : ¬ k = k' := fun e => h e.symm
      simp only [assocKeys] at ih
      simp only [assocSet, if_neg h, assocKeys, List.map_cons, List.mem_cons, h', false_or, ih]
      split <;> simp

theorem assocSet_nodup {β : Type} (k : String) (v : β) (l : List (String × β))
    (h : (assocKeys l).Nodup) : (assocKeys (assocSet k v l)).Nodup := by
  rw [assocKeys_set]
  split
  · exact h
  · rename_i hk
    exact List.Nodup.append h (List.nodup_singleton k) (by simpa using hk)

theorem assocDelete_nodup {β : Type} (k : String) (l : List (String × β))
    (h : (assocKeys l).Nodup) : (assocKeys (assocDelete k l)).Nodup := by
  unfold assocKeys assocDelete at *
  exact (List.Nodup.sublist (List.Sublist.map _ (List.filter_sublist l)) h)

theorem insertIndexed_keys_perm {β : Type} (n : Nat) (k : String) (v : β)
    (l : List (String × β)) :
    (assocKeys (insertIndexed n k v l)).Perm (k :: assocKeys l) := by
  induction l with
  | nil => simp [insertIndexed, assocKeys]
  | cons kv rest ih =>
    obtain ⟨k', v'⟩ := kv
    by_cases hb : indexBelow n k' = true
    · simp only [insertIndexed, hb, if_true, assocKeys, List.map_cons]
      exact (List.Perm.cons k' ih).trans (List.Perm.swap k k' _)
    · simp only [insertIndexed, hb, assocKeys, List.map_cons]
      exact List.Perm.refl _

theorem objectDefine_keys_perm {β : Type} (k : String) (v : β) (l : List (String × β)) :
    (assocKeys (objectDefine k v l)).Perm
      (if k ∈ assocKeys l then assocKeys l else k :: assocKeys l) := by
  by_cases h : k ∈ assocKeys l
  · simp only [objectDefine, h, if_true, assocKeys_set]
    exact List.Perm.refl _
  · simp only [objectDefine, h, if_false]
    cases propertyIndex k with
    | some n => exact insertIndexed_keys_perm n k v l
    | none =>
      simp only [assocKeys, List.map_append, List.map_cons, List.map_nil]
      exact List.perm_append_singleton k _

theorem objectDefine_nodup {β : Type} (k : String) (v : β) (l : List (String × β))
    (h : (assocKeys l).Nodup) : (assocKeys (objectDefine k v l)).Nodup := by
  refine (List.Perm.nodup_iff (objectDefine_keys_perm k v l)).mpr ?_
  split
  · exact h
  · rename_i hk
    exact List.nodup_cons.mpr ⟨hk, h⟩

/-- A JavaScript object: own properties in enumeration order, keys pairwise distinct. -/
structure JSObject where
  entries : List (String × JSValue)
  nodup : (assocKeys entries).Nodup

namespace JSObject

instance : DecidableEq JSObject := fun a b =>
  if h : a.entries = b.entries then
    isTrue (by cases a; cases b; cases h; rfl)
  else
    isFalse (fun e => h (by rw [e]))

/-- The object literal with no property. -/
def empty : JSObject := ⟨[], List.nodup_nil⟩

/-- Result of `Object.keys`. -/
def keys (o : JSObject) : List String := assocKeys o.entries

/-- Value of the own property `k`, or `undefined` when the object has no own property
`k`. A read `o.k` gives this value for every name that nothing inherits, such as
`platform`. -/
def get (o : JSObject) (k : String) : JSValue :=
  (assocGet k o.entries).getD JSValue.undefined

/-- Definition of the own property `k` with value `v`, as done by an object literal and
by object spread. -/
def set (o : JSObject) (k : String) (v : JSValue) : JSObject :=
  ⟨objectDefine k v o.entries, objectDefine_nodup k v o.entries o.nodup⟩

/-- Object spread `{...target, ...source}` continued on an object under construction:
every property of `source`, in order, is defined on `target`. -/
def spread (target source : JSObject) : JSObject :=
  source.entries.foldl (fun acc kv => acc.set kv.1 kv.2) target

/-- Object built from a list of properties defined in order. -/
def ofList (l : List (String × JSValue)) : JSObject :=
  l.foldl (fun acc kv => acc.set kv.1 kv.2) empty

end JSObject

/-- Text of a built-in function, as string conversion gives it. -/
def nativeFunction (name : String) : JSValue :=
  .raw ("function " ++ name ++ "() \x7b [native code] \x7d")

/-- The members every plain object inherits from `Object.prototype`, with the value a
read gives: the built-in functions, and for the accessor `__proto__` the prototype
object itself. -/
def objectPrototype : List (String × JSValue) :=
  [ ("constructor", nativeFunction "Object"),
    ("__defineGetter__", nativeFunction "__defineGetter__"),
    ("__defineSetter__", nativeFunction "__defineSetter__"),
    ("hasOwnProperty", nativeFunction "hasOwnProperty"),
    ("__lookupGetter__", nativeFunction "__lookupGetter__"),
    ("__lookupSetter__", nativeFunction "__lookupSetter__"),
    ("isPrototypeOf", nativeFunction "isPrototypeOf"),
    ("propertyIsEnumerable", nativeFunction "propertyIsEnumerable"),
    ("toString", nativeFunction "toString"),
    ("valueOf", nativeFunction "valueOf"),
    ("__proto__", .raw "[object Object]"),
    ("toLocaleString", nativeFunction "toLocaleString") ]

/-- The members an array inherits from `Array.prototype` (ECMAScript 2023) and, behind
it, from `Object.prototype`; the accessor `__proto__` gives `Array.prototype`, whose
string conversion is the empty text. -/
def arrayPrototype : List (String × JSValue) :=
  [ ("constructor", nativeFunction "Array"),
    ("at", nativeFunction "at"), ("concat", nativeFunction "concat"),
    ("copyWithin", nativeFunction "copyWithin"), ("fill", nativeFunction "fill"),
    ("find", nativeFunction "find"), ("findIndex", nativeFunction "findIndex"),
    ("findLast", nativeFunction "findLast"),
    ("findLastIndex", nativeFunction "findLastIndex"),
    ("lastIndexOf", nativeFunction "lastIndexOf"), ("pop", nativeFunction "pop"),
    ("push", nativeFunction "push"), ("reverse", nativeFunction "reverse"),
    ("shift", nativeFunction "shift"), ("unshift", nativeFunction "unshift"),
    ("slice", nativeFunction "slice"), ("sort", nativeFunction "sort"),
    ("splice", nativeFunction "splice"), ("includes", nativeFunction "includes"),
    ("indexOf", nativeFunction "indexOf"), ("join", nativeFunction "join"),
    ("keys", nativeFunction "keys"), ("entries", nativeFunction "entries"),
    ("values", nativeFunction "values"), ("forEach", nativeFunction "forEach"),
    ("filter", nativeFunction "filter"), ("flat", nativeFunction "flat"),
    ("flatMap", nativeFunction "flatMap"), ("map", nativeFunction "map"),
    ("every", nativeFunction "every"), ("some", nativeFunction "some"),
    ("reduce", nativeFunction "reduce"), ("reduceRight", nativeFunction "reduceRight"),
    ("toLocaleString", nativeFunction "toLocaleString"),
    ("toString", nativeFunction "toString"),
    ("toReversed", nativeFunction "toReversed"), ("toSorted", nativeFunction "toSorted"),
    ("toSpliced", nativeFunction "toSpliced"), ("with", nativeFunction "with"),
    ("__defineGetter__", nativeFunction "__defineGetter__"),
    ("__defineSetter__", nativeFunction "__defineSetter__"),
    ("hasOwnProperty", nativeFunction "hasOwnProperty"),
    ("__lookupGetter__", nativeFunction "__lookupGetter__"),
    ("__lookupSetter__", nativeFunction "__lookupSetter__"),
    ("isPrototypeOf", nativeFunction "isPrototypeOf"),
    ("propertyIsEnumerable", nativeFunction "propertyIsEnumerable"),
    ("valueOf", nativeFunction "valueOf"),
    ("__proto__", .raw "") ]

/-- Property read `o[k]` with a computed name on a plain object: the own property if
there is one, else the member inherited from `Object.prototype`, else `undefined`. -/
def JSObject.read (o : JSObject) (k : String) : JSValue :=
  match assocGet k o.entries with
  | some v => v
  | none => (assocGet k objectPrototype).getD JSValue.undefined


/-! ## Badge renderer (`generateStatsBadgeSVG`) -/

def PLATFORM_WIDTH : Int := 350
def BASE_HEIGHT : Int := 100
def FEATURE_HEIGHT : Int := 25
def PADDING_TOP : Int := 20
def PADDING_BOTTOM : Int := 30

/-- The table `platformColors`. -/
def platformColors : List (String × String) :=
  [("github", "24292e"), ("leetcode_stats", "0a84ff"), ("leetcode_contests", "ffd700")]

/-- Swatch colour of a platform, `platformColors[platform] || '4a4a4a'`: the table entry;
for a name the table inherits from `Object.prototype`, the text of that member; else the
default colour. -/
def getColorForPlatform (platform : String) : String :=
  match assocGet platform platformColors with
  | some color => color
  | none =>
    match assocGet platform objectPrototype with
    | some inherited => inherited.toText
    | none => "4a4a4a"

/-- The replacement `s.replace(/_/g, ' ')`. -/
def replaceUnderscores (s : String) : String :=
  s.map (fun c => if c = '_' then ' ' else c)

/-- Word characters of a regular expression: ASCII letters, digits and the underscore. -/
def isWordChar (c : Char) : Bool :=
  c.isAlphanum || c = '_'

/-- The replacement `.replace(/\b\w/g, l => l.toUpperCase())` on a character list:
`prevWord` tells whether the character before the current one is a word character. -/
def capitalizeFrom : Bool → List Char → List Char
  | _, [] => []
  | prevWord, c :: rest =>
    (if isWordChar c && !prevWord then c.toUpper else c) :: capitalizeFrom (isWordChar c) rest

/-- Upper-cases the first character of every word. -/
def capitalizeWords (s : String) : String :=
  ⟨capitalizeFrom false s.data⟩

/-- Row label of a feature key. -/
def formatKey (key : String) : String :=
  capitalizeWords (replaceUnderscores key)

/-- Opening markup of the image: the svg element with its declared width and view box, then the style sheet. -/
def svgOpen (totalWidth : Int) : String :=
  "\n" ++
  "        <svg xmlns=\"http://www.w3.org/2000/svg\" width=\"" ++
  toString totalWidth ++
  "\" height=\"auto\" viewBox=\"0 0 " ++
  toString totalWidth ++
  " auto\">\n" ++
  "            <style>\n" ++
  "                .badge-bg \x7b fill: #f6f8fa; \x7d\n" ++
  "                .platform-title \x7b font-family: -apple-system, BlinkMacSystemFont, \x27Segoe UI\x27, Roboto, Oxygen, Ubuntu, Cantarell, \x27Open Sans\x27, \x27Helvetica Neue\x27, sans-serif; \x7d\n" ++
  "                .title \x7b font-size: 16px; font-weight: bold; fill: #24292e; \x7d\n" ++
  "                .subtitle \x7b font-size: 12px; fill: #6a737d; \x7d\n" ++
  "                .stat-label \x7b font-size: 12px; fill: #6a737d; \x7d\n" ++
  "                .stat-value \x7b font-size: 14px; font-weight: bold; fill: #24292e; \x7d\n" ++
  "            </style>\n" ++
  "    "

/-- Background rectangle of one panel, the first element of the panel template. -/
def badgeBackground (xOffset platformHeight : Int) : String :=
  "\n" ++
  "            <rect \n" ++
  "                x=\"" ++
  toString xOffset ++
  "\" y=\"0\" \n" ++
  "                width=\"" ++
  toString PLATFORM_WIDTH ++
  "\" \n" ++
  "                height=\"" ++
  toString platformHeight ++
  "\" \n" ++
  "                class=\"badge-bg\" \n" ++
  "                rx=\"6\" \n" ++
  "                ry=\"6\" \n" ++
  "                stroke=\"#e1e4e8\" \n" ++
  "                stroke-width=\"1\"\n" ++
  "            />"

/-- Rest of the panel template: colour swatch, platform title and the fixed subtitle. -/
def panelHeader (xOffset : Int) (platform : String) : String :=
  "\n" ++
  "            \n" ++
  "            <!-- Platform Icon (placeholder) -->\n" ++
  "            <rect \n" ++
  "                x=\"" ++
  toString (xOffset + 20) ++
  "\" y=\"" ++
  toString PADDING_TOP ++
  "\" \n" ++
  "                width=\"40\" height=\"40\" \n" ++
  "                rx=\"6\" \n" ++
  "                ry=\"6\" \n" ++
  "                fill=\"#" ++
  getColorForPlatform platform ++
  "\"\n" ++
  "            />\n" ++
  "            \n" ++
  "            <!-- Platform Title -->\n" ++
  "            <text \n" ++
  "                x=\"" ++
  toString (xOffset + 70) ++
  "\" y=\"" ++
  toString (PADDING_TOP + 20) ++
  "\" \n" ++
  "                class=\"title platform-title\"\n" ++
  "                font-size=\"16\"\n" ++
  "                font-weight=\"600\"\n" ++
  "            >\n" ++
  "                " ++
  replaceUnderscores platform ++
  "\n" ++
  "            </text>\n" ++
  "            <text \n" ++
  "                x=\"" ++
  toString (xOffset + 70) ++
  "\" y=\"" ++
  toString (PADDING_TOP + 40) ++
  "\" \n" ++
  "                class=\"subtitle platform-title\"\n" ++
  "                font-size=\"12\"\n" ++
  "            >\n" ++
  "                Profile Statistics\n" ++
  "            </text>\n" ++
  "        "

/-- One feature row: label, right-anchored value and the divider line beneath. -/
def featureRow (xOffset yPosition : Int) (formattedKey : String) (value : JSValue) : String :=
  "\n" ++
  "                    <text \n" ++
  "                        x=\"" ++
  toString (xOffset + 20) ++
  "\" \n" ++
  "                        y=\"" ++
  toString yPosition ++
  "\" \n" ++
  "                        class=\"stat-label platform-title\"\n" ++
  "                    >\n" ++
  "                        " ++
  formattedKey ++
  "\n" ++
  "                    </text>\n" ++
  "                    <text \n" ++
  "                        x=\"" ++
  toString (xOffset + 320) ++
  "\" \n" ++
  "                        y=\"" ++
  toString yPosition ++
  "\" \n" ++
  "                        class=\"stat-value platform-title\"\n" ++
  "                        text-anchor=\"end\"\n" ++
  "                    >\n" ++
  "                        " ++
  JSValue.toText value ++
  "\n" ++
  "                    </text>\n" ++
  "                    <line \n" ++
  "                        x1=\"" ++
  toString (xOffset + 20) ++
  "\" \n" ++
  "                        y1=\"" ++
  toString (yPosition + 5) ++
  "\" \n" ++
  "                        x2=\"" ++
  toString (xOffset + 320) ++
  "\" \n" ++
  "                        y2=\"" ++
  toString (yPosition + 5) ++
  "\" \n" ++
  "                        stroke=\"#e1e4e8\" \n" ++
  "                        stroke-width=\"0.5\"\n" ++
  "                    />\n" ++
  "                "

/-- Trailing time stamp line of a panel. -/
def lastUpdated (xOffset platformHeight : Int) (localeNow : String) : String :=
  "\n" ++
  "            <text \n" ++
  "                x=\"" ++
  toString (xOffset + 20) ++
  "\" \n" ++
  "                y=\"" ++
  toString (platformHeight - 10) ++
  "\" \n" ++
  "                class=\"subtitle platform-title\"\n" ++
  "                font-size=\"10\"\n" ++
  "            >\n" ++
  "                Last Updated: " ++
  localeNow ++
  "\n" ++
  "            </text>\n" ++
  "        "
/-- The loop over `Object.entries(platformStats)`: every key other than `platform` adds a
row at the running `featureCount` and increments it. Returns the counter and the text. -/
def renderFeatures (xOffset : Int) :
    List (String × JSValue) → Int → String → Int × String
  | [], featureCount, svgContent => (featureCount, svgContent)
  | (key, value) :: rest, featureCount, svgContent =>
    if key ≠ "platform" then
      let formattedKey := formatKey key
      let yPosition := PADDING_TOP + 60 + (featureCount * FEATURE_HEIGHT)
      renderFeatures xOffset rest (featureCount + 1)
        (svgContent ++ featureRow xOffset yPosition formattedKey value)
    else
      renderFeatures xOffset rest featureCount svgContent

/-- Body of the `stats.forEach` callback: appends the panel of `platformStats`, drawn at
position `index`, to `svgContent`. Calling `.replace` on a platform that is not a string
throws. -/
def renderPanel (svgContent : String) (platformStats : JSObject) (index : Nat)
    (localeNow : String) : Except String String :=
  let platform := platformStats.get "platform"
  let xOffset : Int := index * PLATFORM_WIDTH
  let featureCount : Int := (platformStats.keys.length : Int) - 1
  let platformHeight := BASE_HEIGHT + (featureCount * FEATURE_HEIGHT) + PADDING_TOP + PADDING_BOTTOM
  match platform with
  | .str platform =>
    let svgContent := svgContent ++ (badgeBackground xOffset platformHeight ++ panelHeader xOffset platform)
    let featureCount : Int := 0
    let svgContent := (renderFeatures xOffset platformStats.entries featureCount svgContent).2
    .ok (svgContent ++ lastUpdated xOffset platformHeight localeNow)
  | .undefined => .error "TypeError: Cannot read properties of undefined (reading \x27replace\x27)"
  | .null => .error "TypeError: Cannot read properties of null (reading \x27replace\x27)"
  | _ => .error "TypeError: platform.replace is not a function"

/-- The `stats.forEach` loop, from position `index` on; `clock i` is the locale time string
read while panel `i` is drawn. -/
def renderPanels (clock : Nat → String) :
    List JSObject → Nat → String → Except String String
  | [], _, svgContent => .ok svgContent
  | platformStats :: rest, index, svgContent =>
    match renderPanel svgContent platformStats index (clock index) with
    | .ok svgContent => renderPanels clock rest (index + 1) svgContent
    | .error e => .error e

/-- Function `generateStatsBadgeSVG`: the markup of the badge for a list of stat records. -/
def generateStatsBadgeSVG (stats : List JSObject) (clock : Nat → String) : Except String String :=
  match renderPanels clock stats 0 (svgOpen (PLATFORM_WIDTH * stats.length)) with
  | .ok svgContent => .ok (svgContent ++ "</svg>")
  | .error e => .error e

/-! ## Platform descriptors (`PLATFORMS`) -/

/-- One entry of the `PLATFORMS` table. -/
structure PlatformDescriptor where
  name : String
  features : List String
  deriving DecidableEq, Repr

/-- The `PLATFORMS` configuration: platform identifier, display name, known features. -/
def PLATFORMS : List (String × PlatformDescriptor) :=
  [ ("github", ⟨"GitHub",
      ["avatar_url", "name", "login", "bio", "public_repos",
       "followers", "following", "created_at", "total_contributions",
       "html_url", "company", "blog", "location", "email", "hireable"]⟩),
    ("leetcode_stats", ⟨"LeetCode Stats",
      ["totalSolved", "totalQuestions", "easySolved", "totalEasy",
       "mediumSolved", "totalMedium", "hardSolved", "totalHard",
       "acceptanceRate", "ranking", "contributionPoints", "reputation"]⟩),
    ("leetcode_contests", ⟨"LeetCode Contests",
      ["attendedContestsCount", "rating", "globalRanking",
       "totalParticipants", "topPercentage"]⟩) ]

/-! ## Platform data fetcher (`fetchPlatformData`) -/

/-- The upstream services, as seen by the fetcher: each call either fails with the
message of the error thrown, or gives the value the fetcher reads from the response
(`none` is a `null` payload). -/
structure Upstream where
  githubUser : String → Except String (Option JSObject)
  githubEvents : String → Except String Nat
  leetcodeStats : String → Except String (Option JSObject)
  leetcodeContests : String → Except String (Option JSObject)

/-- Function `fetchPlatformData`. The events call of the `github` case sits in its own
`try`: when it fails, the count stays `0`. -/
def fetchPlatformData (up : Upstream) (platform username : String) :
    Except String (Option JSObject) :=
  if platform = "github" then
    match up.githubUser username with
    | .error e => .error e
    | .ok data =>
      let totalContributions : Nat :=
        match up.githubEvents username with
        | .ok length => length
        | .error _ => 0
      .ok (some ((JSObject.spread JSObject.empty (data.getD JSObject.empty)).set
        "total_contributions" (.num totalContributions)))
  else if platform = "leetcode_stats" then
    up.leetcodeStats username
  else if platform = "leetcode_contests" then
    up.leetcodeContests username
  else
    .error "Unsupported platform"

/-! ## Feature projection (inside the two `platforms.map` callbacks) -/

/-- One element of the request's `platforms` list; `features` is `none` when the entry
has no feature list. -/
structure PlatformInfo where
  platform : String
  username : String
  features : Option (List String)
  deriving DecidableEq, Repr

/-- The loop `platformInfo.features.forEach(...)`: a requested feature whose value read
from `fullData` is not `undefined` is assigned to `filteredData`. Reading a property of a
`null` payload throws. The assignment of the name `__proto__`, as long as `filteredData`
inherits the setter of `Object.prototype` and has no own property of that name, creates
no property: it changes the prototype, and `nullProto` records that the prototype has
become `null`, after which the setter is no longer inherited. -/
def filterFeatures (fullData : Option JSObject) :
    List String → JSObject → Bool → Except String JSObject
  | [], filteredData, _ => .ok filteredData
  | feature :: rest, filteredData, nullProto =>
    match fullData with
    | none => .error "TypeError: Cannot read properties of null"
    | some data =>
      if data.read feature ≠ JSValue.undefined then
        if feature = "__proto__" ∧ nullProto = false ∧ feature ∉ filteredData.keys then
          filterFeatures fullData rest filteredData (decide (data.read feature = JSValue.null))
        else
          filterFeatures fullData rest (filteredData.set feature (data.read feature)) nullProto
      else
        filterFeatures fullData rest filteredData nullProto

/-- The object literal `{ platform: platformInfo.platform, ...filteredData }`. -/
def withPlatform (platform : String) (filteredData : JSObject) : JSObject :=
  JSObject.spread (JSObject.empty.set "platform" (.str platform)) filteredData

/-- Projection of the generate-badge handler: with no feature list `filteredData` stays
empty and the record holds the platform alone. -/
def projectBadge (platformInfo : PlatformInfo) (fullData : Option JSObject) :
    Except String JSObject :=
  match platformInfo.features with
  | some features =>
    match filterFeatures fullData features JSObject.empty false with
    | .ok filteredData => .ok (withPlatform platformInfo.platform filteredData)
    | .error e => .error e
  | none => .ok (withPlatform platformInfo.platform JSObject.empty)

/-- Projection of the generate-stats handler: with no feature list the callback returns
`fullData` itself. -/
def projectStats (platformInfo : PlatformInfo) (fullData : Option JSObject) :
    Except String (Option JSObject) :=
  match platformInfo.features with
  | some features =>
    match filterFeatures fullData features JSObject.empty false with
    | .ok filteredData => .ok (some (withPlatform platformInfo.platform filteredData))
    | .error e => .error e
  | none => .ok fullData

/-! ## Snapshot cache (`statsCache`) -/

/-- Value stored in the cache by generate-badge. -/
structure CacheEntry where
  stats : List JSObject
  timestamp : Int
  deriving DecidableEq

/-- The `statsCache` map: entries in insertion order, keys pairwise distinct. -/
structure StatsCache where
  entries : List (String × CacheEntry)
  nodup : (assocKeys entries).Nodup

namespace StatsCache

/-- The map with no entry. -/
def empty : StatsCache := ⟨[], List.nodup_nil⟩

/-- Method `Map.prototype.get`. -/
def get (cache : StatsCache) (key : String) : Option CacheEntry :=
  assocGet key cache.entries

/-- Method `Map.prototype.set`. -/
def set (cache : StatsCache) (key : String) (value : CacheEntry) : StatsCache :=
  ⟨assocSet key value cache.entries, assocSet_nodup key value cache.entries cache.nodup⟩

/-- Method `Map.prototype.delete`. -/
def delete (cache : StatsCache) (key : String) : StatsCache :=
  ⟨assocDelete key cache.entries, assocDelete_nodup key cache.entries cache.nodup⟩

end StatsCache

/-- The loop of the clean-up timer over `statsCache.entries()`: an entry older than one
hour is deleted from the map while the iteration goes on. -/
def sweepLoop (now : Int) : List (String × CacheEntry) → StatsCache → StatsCache
  | [], cache => cache
  | (key, value) :: rest, cache =>
    if now - value.timestamp > 3600000 then
      sweepLoop now rest (cache.delete key)
    else
      sweepLoop now rest cache

/-- One run of the `setInterval` callback at time `now`. -/
def sweep (cache : StatsCache) (now : Int) : StatsCache :=
  sweepLoop now cache.entries cache

/-! ## HTTP handlers -/

/-- What a handler sends: status code, the content type it sets itself, and the body. -/
structure HttpResponse where
  status : Nat
  contentType : Option String
  body : String
  deriving DecidableEq, Repr

/-- The not-found answer of badge retrieval. -/
def badgeNotFound : HttpResponse :=
  ⟨404, none, "Badge not found or expired"⟩

/-- How badge retrieval ends once the entry is accepted: the markup is sent as an SVG
image; an exception thrown by the renderer reaches the error middleware. -/
def sendBadge : Except String String → HttpResponse
  | .ok svg => ⟨200, some "image/svg+xml", svg⟩
  | .error _ => ⟨500, none, "Something broke! Check the server logs."⟩

/-- Handler `GET /badge/:statsKey`, run at time `now`. It does not change the cache. -/
def badgeHandler (cache : StatsCache) (statsKey : String) (now : Int)
    (clock : Nat → String) : HttpResponse :=
  match cache.get statsKey with
  | none => badgeNotFound
  | some cachedStats =>
    if now - cachedStats.timestamp > 3600000 then
      badgeNotFound
    else
      sendBadge (generateStatsBadgeSVG cachedStats.stats clock)

/-- The `platforms.map(async ...)` callback of generate-badge for one entry. -/
def badgeStatsFor (up : Upstream) (platformInfo : PlatformInfo) : Except String JSObject :=
  match fetchPlatformData up platformInfo.platform platformInfo.username with
  | .ok fullData => projectBadge platformInfo fullData
  | .error e => .error e

/-- The `Promise.all` over the per-entry results: every result in request order, or the
failure of an entry that failed (here the first one in request order). -/
def awaitAll {α β : Type} (f : α → Except String β) : List α → Except String (List β)
  | [] => .ok []
  | a :: rest =>
    match f a with
    | .error e => .error e
    | .ok b =>
      match awaitAll f rest with
      | .ok bs => .ok (b :: bs)
      | .error e => .error e

/-- JSON answers of generate-badge. -/
inductive BadgeReply where
  | badRequest (error : String)
  | created (badgeUrl statsKey : String)
  | failed (error details : String)
  deriving DecidableEq, Repr

/-- Status code of a generate-badge answer. -/
def BadgeReply.status : BadgeReply → Nat
  | .badRequest _ => 400
  | .created _ _ => 200
  | .failed _ _ => 500

/-- The cache write of generate-badge: the results are stored under `statsKey` with the
current time. -/
def storeStats (cache : StatsCache) (statsKey : String) (statsResults : List JSObject)
    (now : Int) : StatsCache :=
  cache.set statsKey ⟨statsResults, now⟩

/-- Handler `POST /generate-badge`. `platforms` is `none` when the request body has no
platform list; `statsKey` is the hex text of the sixteen random bytes drawn and `now` the
time read when the results are stored. Returns the answer and the cache afterwards. -/
def generateBadgeHandler (up : Upstream) (platforms : Option (List PlatformInfo))
    (statsKey : String) (now : Int) (cache : StatsCache) : BadgeReply × StatsCache :=
  match platforms with
  | none => (.badRequest "Platform data is required", cache)
  | some [] => (.badRequest "Platform data is required", cache)
  | some (first :: others) =>
    match awaitAll (badgeStatsFor up) (first :: others) with
    | .ok statsResults =>
      (.created ("http://localhost:8000/badge/" ++ statsKey) statsKey,
        storeStats cache statsKey statsResults now)
    | .error message => (.failed "Failed to generate badge" message, cache)

/-- A cache operation: the write of generate-badge, a badge retrieval, a clean-up run. -/
inductive CacheOp where
  | insert (statsKey : String) (statsResults : List JSObject) (now : Int)
  | lookup (statsKey : String) (now : Int)
  | sweep (now : Int)

/-- The cache after an operation. Badge retrieval only reads. -/
def CacheOp.apply (cache : StatsCache) : CacheOp → StatsCache
  | .insert statsKey statsResults now => storeStats cache statsKey statsResults now
  | .lookup _ _ => cache
  | .sweep now => GitGo.sweep cache now

/-! ## Markdown renderer (`generateMarkdownSnippet`) -/

/-- The operator `delete o[k]`. -/
def JSObject.delete (o : JSObject) (k : String) : JSObject :=
  ⟨assocDelete k o.entries, assocDelete_nodup k o.entries o.nodup⟩

/-- Truthiness of a value, as tested by the operator `||`. -/
def JSValue.truthy : JSValue → Bool
  | .undefined => false
  | .null => false
  | .bool b => b
  | .num n => decide (n ≠ 0)
  | .str s => decide (s ≠ "")
  | .raw _ => true

/-- Property read `items[key]` on an array of strings: the element at an index, the
`length`, a member inherited from `Array.prototype`, and `undefined` for any other
name. -/
def arrayProperty (items : List String) (key : String) : JSValue :=
  match arrayIndex key with
  | some i =>
    match items.get? i with
    | some item => .str item
    | none => .undefined
  | none =>
    if key = "length" then .num items.length
    else (assocGet key arrayPrototype).getD JSValue.undefined

/-- The label of a bullet: `PLATFORMS[platform].features[feature] || feature`. -/
def featureLabel (descriptor : PlatformDescriptor) (feature : String) : String :=
  if (arrayProperty descriptor.features feature).truthy then
    (arrayProperty descriptor.features feature).toText
  else
    feature

/-- The inner loop over `Object.entries(data)`: one bullet per feature whose value is
neither `null` nor `undefined`. -/
def markdownFeatures (descriptor : PlatformDescriptor) :
    List (String × JSValue) → String → String
  | [], markdown => markdown
  | (feature, value) :: rest, markdown =>
    if value ≠ JSValue.null ∧ value ≠ JSValue.undefined then
      markdownFeatures descriptor rest
        (markdown ++ ("- " ++ featureLabel descriptor feature ++ ": " ++ value.toText ++ "\n"))
    else
      markdownFeatures descriptor rest markdown

/-- Text of `PLATFORMS[platform].name` for a name that `PLATFORMS` inherits from
`Object.prototype`: the name of the built-in function, and `undefined` for the prototype
object that `__proto__` gives. -/
def inheritedName (platform : String) : Option String :=
  if platform = "constructor" then some "Object"
  else if platform = "__proto__" then some "undefined"
  else if platform ∈ assocKeys objectPrototype then some platform
  else none

/-- The first feature of `entries` whose value is neither `null` nor `undefined`. -/
def firstPrinted : List (String × JSValue) → Option String
  | [] => none
  | (feature, value) :: rest =>
    if value ≠ JSValue.null ∧ value ≠ JSValue.undefined then some feature
    else firstPrinted rest

/-- The outer loop over `Object.entries(platformData)`. Reading `.name` of a descriptor
that `PLATFORMS` neither has nor inherits throws. An inherited member has a name but no
`features`, so the label lookup of the first feature to print throws. -/
def markdownPlatforms : List (String × JSObject) → String → Except String String
  | [], markdown => .ok markdown
  | (platform, data) :: rest, markdown =>
    match assocGet platform PLATFORMS with
    | some descriptor =>
      markdownPlatforms rest
        (markdownFeatures descriptor data.entries (markdown ++ ("### " ++ descriptor.name ++ "\n"))
          ++ "\n")
    | none =>
      match inheritedName platform with
      | none => .error "TypeError: Cannot read properties of undefined (reading \x27name\x27)"
      | some name =>
        match firstPrinted data.entries with
        | some feature =>
          .error ("TypeError: Cannot read properties of undefined (reading \x27" ++ feature
            ++ "\x27)")
        | none => markdownPlatforms rest ((markdown ++ ("### " ++ name ++ "\n")) ++ "\n")

/-- Function `generateMarkdownSnippet`; `platformData` lists the entries of the
platform-to-fields object in enumeration order. -/
def generateMarkdownSnippet (platformData : List (String × JSObject)) : Except String String :=
  markdownPlatforms platformData "## My Profile Stats\n\n"

/-! ## Handler `POST /generate-stats` -/

/-- The `platforms.map(async ...)` callback of generate-stats for one entry; `none` is a
`null` result. -/
def statsFor (up : Upstream) (platformInfo : PlatformInfo) : Except String (Option JSObject) :=
  match fetchPlatformData up platformInfo.platform platformInfo.username with
  | .ok fullData => projectStats platformInfo fullData
  | .error e => .error e

/-- The `statsResults.reduce(...)` of generate-stats: each result is copied, the copy is
assigned to the property named by the `platform` value of the result and loses its
`platform` key. Reading `.platform` of a `null` result throws. An assignment to the name
`__proto__` runs the inherited setter and leaves the own properties as they are. -/
def groupByPlatform :
    List (Option JSObject) → List (String × JSObject) → Except String (List (String × JSObject))
  | [], acc => .ok acc
  | none :: _, _ => .error "TypeError: Cannot read properties of null (reading \x27platform\x27)"
  | some stat :: rest, acc =>
    if (stat.get "platform").toText = "__proto__" then
      groupByPlatform rest acc
    else
      groupByPlatform rest
        (objectDefine (stat.get "platform").toText (stat.delete "platform") acc)

/-- JSON answers of generate-stats. -/
inductive StatsReply where
  | badRequest (error : String)
  | ok (stats : List (Option JSObject)) (markdownSnippet : String)
  | failed (error details : String)

/-- Status code of a generate-stats answer. -/
def StatsReply.status : StatsReply → Nat
  | .badRequest _ => 400
  | .ok _ _ => 200
  | .failed _ _ => 500

/-- Handler `POST /generate-stats`. Every exception of the `try` block ends in the 500
answer with the message of the error. -/
def generateStatsHandler (up : Upstream) (platforms : Option (List PlatformInfo)) : StatsReply :=
  match platforms with
  | none => .badRequest "Platform data is required"
  | some [] => .badRequest "Platform data is required"
  | some (first :: others) =>
    match awaitAll (statsFor up) (first :: others) with
    | .error message => .failed "Failed to fetch profile stats" message
    | .ok statsResults =>
      match groupByPlatform statsResults [] with
      | .error message => .failed "Failed to fetch profile stats" message
      | .ok platformData =>
        match generateMarkdownSnippet platformData with
        | .error message => .failed "Failed to fetch profile stats" message
        | .ok markdownSnippet => .ok statsResults markdownSnippet

/-- The calls of `fetchPlatformData` that generate-stats and generate-badge start, as
pairs of platform and user name: none when the request is rejected by the check of the
platform list, else one per entry, in request order. -/
def fetchesStarted (platforms : Option (List PlatformInfo)) : List (String × String) :=
  match platforms with
  | none => []
  | some [] => []
  | some (first :: others) =>
    (first :: others).map (fun platformInfo => (platformInfo.platform, platformInfo.username))

/-! ## Vocabulary of the properties -/

/-- A stat record in the sense of the data model: an object that carries its platform
identifier, a string, under the key `platform`. -/
def IsStatRecord (r : JSObject) : Prop :=
  ∃ platform, r.get "platform" = JSValue.str platform

/-- A cache whose snapshots hold stat records. -/
def StatsCache.HoldsStatRecords (cache : StatsCache) : Prop :=
  ∀ kv ∈ cache.entries, ∀ r ∈ kv.2.stats, IsStatRecord r

/-- The platform identifier of a stat record (empty when the record carries none). -/
def platformName (r : JSObject) : String :=
  match r.get "platform" with
  | .str platform => platform
  | _ => ""

/-- Feature keys of a record: all keys other than `platform`, in enumeration order. -/
def featureKeys (r : JSObject) : List String :=
  r.keys.filter (fun k => k ≠ "platform")

/-- Number of feature keys of a record. -/
def featureCount (r : JSObject) : Nat :=
  (featureKeys r).length

/-- Concatenation of a list of texts, first to last. -/
def concatAll : List String → String
  | [] => ""
  | s :: rest => s ++ concatAll rest

/-- Text of the feature rows of a record drawn at `xOffset`, the counter starting at
`start`. -/
def featureRows (xOffset : Int) (entries : List (String × JSValue)) (start : Int) : String :=
  (renderFeatures xOffset entries start "").2

/-- What follows the background rectangle in the panel of `platformStats` drawn at
position `index`: header, feature rows, time stamp line. -/
def panelTail (index : Nat) (platformStats : JSObject) (localeNow : String) : String :=
  panelHeader (index * PLATFORM_WIDTH) (platformName platformStats) ++
  (featureRows (index * PLATFORM_WIDTH) platformStats.entries 0 ++
   lastUpdated (index * PLATFORM_WIDTH)
     (BASE_HEIGHT + (((platformStats.keys.length : Int) - 1) * FEATURE_HEIGHT)
       + PADDING_TOP + PADDING_BOTTOM) localeNow)

/-- Feature entries of a record: the properties other than `platform`, in enumeration
order. -/
def featureEntries (r : JSObject) : List (String × JSValue) :=
  r.entries.filter (fun kv => kv.1 ≠ "platform")

/-- The platform identifiers `fetchPlatformData` supports. -/
def supportedPlatforms : List String :=
  ["github", "leetcode_stats", "leetcode_contests"]

/-- The replacement of underscores on a character list. -/
def spacedChars (key : String) : List Char :=
  key.data.map (fun c => if c = '_' then ' ' else c)

/-- Whether position `i` of a character list starts a word: a word character that is the
first character or follows a character that is not a word character. -/
def startsWord (chars : List Char) (i : Nat) : Bool :=
  match chars.get? i with
  | none => false
  | some c =>
    isWordChar c &&
      (match i with
       | 0 => true
       | j + 1 =>
         match chars.get? j with
         | some p => !isWordChar p
         | none => true)

/-- The insertion of `op`, if it is one, is under a key the cache does not hold yet. -/
def CacheOp.InsertsFreshKey (cache : StatsCache) : CacheOp → Prop
  | .insert statsKey _ _ => cache.get statsKey = none
  | .lookup _ _ => True
  | .sweep _ => True

/-! ## Sample data -/

/-- A stat record of the `github` platform with two features. -/
def sampleRecord : JSObject :=
  JSObject.ofList [("platform", .str "github"), ("public_repos", .num 8), ("followers", .num 5)]

/-- A stat record of the `leetcode_stats` platform with one feature. -/
def sampleRecordLeetcode : JSObject :=
  JSObject.ofList [("platform", .str "leetcode_stats"), ("totalSolved", .num 120)]

/-- A cache with one snapshot, stored at time `1000`. -/
def sampleCache : StatsCache :=
  storeStats StatsCache.empty "a3f1" [sampleRecord] 1000

/-- A clock that always reads the same locale time string. -/
def sampleClock : Nat → String :=
  fun _ => "1/1/2025, 12:00:00 PM"

/-- A small GitHub profile payload. -/
def sampleProfile : JSObject :=
  JSObject.ofList
    [("login", .str "octocat"), ("id", .num 583231), ("public_repos", .num 8),
     ("followers", .num 5)]

/-- What the fetcher returns for that profile when the events call gives thirty events. -/
def sampleFullData : JSObject :=
  sampleProfile.set "total_contributions" (.num 30)

/-- An upstream whose GitHub profile call gives a small profile and whose events call
gives thirty events. -/
def sampleUpstream : Upstream where
  githubUser := fun _ => .ok (some sampleProfile)
  githubEvents := fun _ => .ok 30
  leetcodeStats := fun _ => .ok (some (JSObject.ofList
    [("status", .str "success"), ("totalSolved", .num 120)]))
  leetcodeContests := fun _ => .ok none

/-- A request entry asking for two GitHub features. -/
def sampleRequest : PlatformInfo :=
  ⟨"github", "octocat", some ["public_repos", "followers"]⟩

/-- A request entry asking for `id`, a field of the GitHub payload that is not among the
features of the `github` descriptor. -/
def sampleRequestId : PlatformInfo :=
  ⟨"github", "octocat", some ["id", "followers"]⟩

/-- A request entry without a feature list. -/
def sampleRequestNoFeatures : PlatformInfo :=
  ⟨"github", "octocat", none⟩

/-- The platform-to-fields object `{github: {public_repos: 10, followers: 5}}`. -/
def samplePlatformData : List (String × JSObject) :=
  [("github", JSObject.ofList [("public_repos", .num 10), ("followers", .num 5)])]

/-- A platform-to-fields object with a `null` field. -/
def samplePlatformDataWithNull : List (String × JSObject) :=
  [("github", JSObject.ofList
      [("public_repos", .num 10), ("bio", .null), ("followers", .num 5)]),
   ("leetcode_stats", JSObject.ofList [("totalSolved", .num 120)])]

/-- The platform-to-fields object generate-stats builds from a result without a
`platform` key: the result sits under the property `undefined`. -/
def samplePlatformDataUnknown : List (String × JSObject) :=
  [("undefined", sampleFullData)]

/-- An upstream whose GitHub profile call succeeds and whose events call fails. -/
def sampleUpstreamNoEvents : Upstream where
  githubUser := fun _ => .ok (some sampleProfile)
  githubEvents := fun _ => .error "Request failed with status code 403"
  leetcodeStats := fun _ => .error "Request failed with status code 500"
  leetcodeContests := fun _ => .ok none

/-- A request entry for a platform the fetcher does not support. -/
def sampleRequestUnsupported : PlatformInfo :=
  ⟨"gitlab", "octocat", some ["followers"]⟩

/-- An upstream whose LeetCode statistics payload carries a numeric field named
`platform`. -/
def sampleUpstreamOddPlatform : Upstream where
  githubUser := fun _ => .ok (some sampleProfile)
  githubEvents := fun _ => .ok 30
  leetcodeStats := fun _ => .ok (some (JSObject.ofList
    [("status", .str "success"), ("platform", .num 2), ("totalSolved", .num 120)]))
  leetcodeContests := fun _ => .ok none

/-- A request entry that lists `platform` among its features. -/
def sampleRequestOddPlatform : PlatformInfo :=
  ⟨"leetcode_stats", "octocat", some ["platform", "totalSolved"]⟩

/-- The record generate-badge builds for `sampleRequestOddPlatform` on
`sampleUpstreamOddPlatform`: the spread of the filtered data has replaced the platform
identifier by the number. -/
def sampleRecordOddPlatform : JSObject :=
  JSObject.ofList [("platform", .num 2), ("totalSolved", .num 120)]

/-- The cache after that request, stored under `c4d9` at time `1000`. -/
def sampleCacheOddPlatform : StatsCache :=
  storeStats StatsCache.empty "c4d9" [sampleRecordOddPlatform] 1000

/-- A request entry that lists names every object inherits next to a real feature. -/
def sampleRequestInherited : PlatformInfo :=
  ⟨"github", "octocat", some ["constructor", "__proto__", "followers"]⟩

/-! ## Lemmas on ordered maps -/

theorem assocGet_set_self {β : Type} (k : String) (v : β) (l : List (String × β)) :
    assocGet k (assocSet k v l) = some v := by
  induction l with
  | nil => simp [assocSet, assocGet]
  | cons kv rest ih =>
    obtain ⟨k', v'⟩ := kv
    by_cases h : k' = k
    · simp [assocSet, assocGet, h]
    · simp [assocSet, assocGet, h, ih]

theorem assocGet_set_other {β : Type} (k k' : String) (v : β) (l : List (String × β))
    (h : k' ≠ k) : assocGet k' (assocSet k v l) = assocGet k' l := by
  induction l with
  | nil =>
    have h' : ¬ k = k' := fun e => h e.symm
    simp [assocSet, assocGet, h']
  | cons kv rest ih =>
    obtain ⟨k₁, v₁⟩ := kv
    by_cases h₁ : k₁ = k
    · subst h₁
      have h' : ¬ k₁ = k' := fun e => h e.symm
      simp [assocSet, assocGet, h']
    · by_cases h₂ : k₁ = k'
      · subst h₂
        simp [assocSet, assocGet, h₁]
      · simp [assocSet, assocGet, h₁, h₂, ih]

theorem assocGet_eq_none_iff {β : Type} (k : String) (l : List (String × β)) :
    assocGet k l = none ↔ k ∉ assocKeys l := by
  induction l with
  | nil => simp [assocGet, assocKeys]
  | cons kv rest ih =>
    obtain ⟨k', v'⟩ := kv
    by_cases h : k' = k
    · simp [assocGet, assocKeys, h]
    · have h' : ¬ k = k' := fun e => h e.symm
      simp only [assocKeys] at ih
      simp [assocGet, assocKeys, h, h', ih]

theorem assocGet_of_mem {β : Type} (k : String) (v : β) (l : List (String × β))
    (hn : (assocKeys l).Nodup) (hm : (k, v) ∈ l) : assocGet k l = some v := by
  induction l with
  | nil => simp at hm
  | cons kv rest ih =>
    obtain ⟨k', v'⟩ := kv
    simp only [assocKeys, List.map_cons, List.nodup_cons] at hn
    rcases List.mem_cons.mp hm with h | h
    · cases h; simp [assocGet]
    · have hk : k ∈ rest.map Prod.fst := List.mem_map.mpr ⟨(k, v), h, rfl⟩
      have hne : ¬ k' = k := fun e => hn.1 (e ▸ hk)
      simp [assocGet, hne, ih hn.2 h]

theorem mem_of_assocGet {β : Type} (k : String) (v : β) (l : List (String × β))
    (h : assocGet k l = some v) : (k, v) ∈ l := by
  induction l with
  | nil => simp [assocGet] at h
  | cons kv rest ih =>
    obtain ⟨k', v'⟩ := kv
    by_cases hk : k' = k
    · simp [assocGet, hk] at h
      simp [hk, h]
    · simp [assocGet, hk] at h
      exact List.mem_cons_of_mem _ (ih h)

theorem assocGet_filter {β : Type} (p : β → Bool) (k : String) (l : List (String × β))
    (hn : (assocKeys l).Nodup) :
    assocGet k (l.filter (fun kv => p kv.2)) = (assocGet k l).filter p := by
  induction l with
  | nil => simp [assocGet]
  | cons kv rest ih =>
    obtain ⟨k', v'⟩ := kv
    simp only [assocKeys, List.map_cons, List.nodup_cons] at hn
    have ih' := ih hn.2
    by_cases hk : k' = k
    · subst hk
      have hnone : assocGet k' rest = none :=
        (assocGet_eq_none_iff k' rest).mpr hn.1
      by_cases hp : p v' = true
      · simp [List.filter_cons, hp, assocGet, Option.filter]
      · simp only [Bool.not_eq_true] at hp
        simp [List.filter_cons, hp, assocGet, Option.filter, ih', hnone]
    · by_cases hp : p v' = true
      · simp [List.filter_cons, hp, assocGet, hk, ih']
      · simp only [Bool.not_eq_true] at hp
        simp [List.filter_cons, hp, assocGet, hk, ih']

/-! ## Lemmas on property definition -/

theorem assocGet_append_other {β : Type} (k k' : String) (v : β) (l : List (String × β))
    (h : k' ≠ k) : assocGet k' (l ++ [(k, v)]) = assocGet k' l := by
  induction l with
  | nil =>
    have h' : ¬ k = k' := fun e => h e.symm
    simp [assocGet, h']
  | cons kv rest ih =>
    obtain ⟨k₁, v₁⟩ := kv
    by_cases h₁ : k₁ = k'
    · simp [assocGet, h₁]
    · simp [assocGet, h₁, ih]

theorem assocGet_append_self {β : Type} (k : String) (v : β) (l : List (String × β))
    (h : k ∉ assocKeys l) : assocGet k (l ++ [(k, v)]) = some v := by
  induction l with
  | nil => simp [assocGet]
  | cons kv rest ih =>
    obtain ⟨k₁, v₁⟩ := kv
    simp only [assocKeys, List.map_cons, List.mem_cons, not_or] at h
    have h₁ : ¬ k₁ = k := fun e => h.1 e.symm
    simp only [List.cons_append, assocGet, h₁, if_false]
    exact ih h.2

theorem assocGet_insertIndexed_other {β : Type} (n : Nat) (k k' : String) (v : β)
    (l : List (String × β)) (h : k' ≠ k) :
    assocGet k' (insertIndexed n k v l) = assocGet k' l := by
  have h' : ¬ k = k' := fun e => h e.symm
  induction l with
  | nil => simp [insertIndexed, assocGet, h']
  | cons kv rest ih =>
    obtain ⟨k₁, v₁⟩ := kv
    by_cases hb : indexBelow n k₁ = true
    · by_cases h₁ : k₁ = k'
      · subst h₁
        simp [insertIndexed, hb, assocGet]
      · simp [insertIndexed, hb, assocGet, h₁, ih]
    · simp [insertIndexed, hb, assocGet, h']

theorem assocGet_insertIndexed_self {β : Type} (n : Nat) (k : String) (v : β)
    (l : List (String × β)) (h : k ∉ assocKeys l) :
    assocGet k (insertIndexed n k v l) = some v := by
  induction l with
  | nil => simp [insertIndexed, assocGet]
  | cons kv rest ih =>
    obtain ⟨k₁, v₁⟩ := kv
    simp only [assocKeys, List.map_cons, List.mem_cons, not_or] at h
    have h₁ : ¬ k₁ = k := fun e => h.1 e.symm
    by_cases hb : indexBelow n k₁ = true
    · simp only [insertIndexed, hb, if_true, assocGet, h₁, if_false]
      exact ih h.2
    · simp [insertIndexed, hb, assocGet]

theorem assocGet_objectDefine_self {β : Type} (k : String) (v : β) (l : List (String × β)) :
    assocGet k (objectDefine k v l) = some v := by
  by_cases h : k ∈ assocKeys l
  · simp only [objectDefine, h, if_true, assocGet_set_self]
  · simp only [objectDefine, h, if_false]
    cases propertyIndex k with
    | some n => exact assocGet_insertIndexed_self n k v l h
    | none => exact assocGet_append_self k v l h

theorem assocGet_objectDefine_other {β : Type} (k k' : String) (v : β)
    (l : List (String × β)) (h : k' ≠ k) :
    assocGet k' (objectDefine k v l) = assocGet k' l := by
  by_cases hk : k ∈ assocKeys l
  · simp only [objectDefine, hk, if_true, assocGet_set_other k k' v l h]
  · simp only [objectDefine, hk, if_false]
    cases propertyIndex k with
    | some n => exact assocGet_insertIndexed_other n k k' v l h
    | none => exact assocGet_append_other k k' v l h

theorem mem_keys_objectDefine {β : Type} (k k' : String) (v : β) (l : List (String × β)) :
    k' ∈ assocKeys (objectDefine k v l) ↔ (k' = k ∨ k' ∈ assocKeys l) := by
  rw [(objectDefine_keys_perm k v l).mem_iff]
  split
  · rename_i hk
    constructor
    · intro h; exact Or.inr h
    · rintro (e | h)
      · exact e ▸ hk
      · exact h
  · simp

theorem objectDefine_keys_of_mem {β : Type} (k : String) (v : β) (l : List (String × β))
    (h : k ∈ assocKeys l) : assocKeys (objectDefine k v l) = assocKeys l := by
  simp only [objectDefine, h, if_true, assocKeys_set]

theorem mem_objectDefine {β : Type} (k : String) (v : β) (l : List (String × β))
    (hn : (assocKeys l).Nodup) (kv : String × β) (h : kv ∈ objectDefine k v l) :
    kv = (k, v) ∨ kv ∈ l := by
  by_cases he : kv.1 = k
  · left
    have hn' := objectDefine_nodup k v l hn
    have h₁ := assocGet_of_mem kv.1 kv.2 _ hn' h
    rw [he, assocGet_objectDefine_self] at h₁
    have : kv.2 = v := (Option.some.inj h₁).symm
    exact Prod.ext he this
  · right
    have hn' := objectDefine_nodup k v l hn
    have h₁ := assocGet_of_mem kv.1 kv.2 _ hn' h
    rw [assocGet_objectDefine_other k kv.1 v l he] at h₁
    exact mem_of_assocGet kv.1 kv.2 l h₁

/-! ## Lemmas on the renderer -/

theorem renderFeatures_snd (xOffset : Int) (entries : List (String × JSValue))
    (featureCount : Int) (svgContent : String) :
    (renderFeatures xOffset entries featureCount svgContent).2
      = svgContent ++ featureRows xOffset entries featureCount := by
  induction entries generalizing featureCount svgContent with
  | nil => simp [renderFeatures, featureRows, String.append_empty]
  | cons kv rest ih =>
    obtain ⟨key, value⟩ := kv
    by_cases h : key = "platform"
    · simp only [featureRows, renderFeatures, h, ne_eq, not_true_eq_false, if_false] at *
      exact ih featureCount svgContent
    · simp only [featureRows, renderFeatures, h, ne_eq, not_false_eq_true, if_true]
      rw [ih, ih (featureCount + 1) ("" ++ _), String.empty_append, String.append_assoc]

theorem renderPanel_of_statRecord (svgContent : String) (r : JSObject) (index : Nat)
    (localeNow : String) (h : IsStatRecord r) :
    renderPanel svgContent r index localeNow
      = .ok (svgContent ++
          (badgeBackground (index * PLATFORM_WIDTH)
              (BASE_HEIGHT + (((r.keys.length : Int) - 1) * FEATURE_HEIGHT)
                + PADDING_TOP + PADDING_BOTTOM)
            ++ panelTail index r localeNow)) := by
  obtain ⟨platform, hp⟩ := h
  simp only [renderPanel, panelTail, platformName, hp, renderFeatures_snd]
  simp only [String.append_assoc]

theorem renderPanels_of_statRecords (clock : Nat → String) (stats : List JSObject)
    (index : Nat) (svgContent : String) (h : ∀ r ∈ stats, IsStatRecord r) :
    renderPanels clock stats index svgContent
      = .ok (svgContent ++ concatAll ((stats.enumFrom index).map (fun ir =>
          badgeBackground (ir.1 * PLATFORM_WIDTH)
              (BASE_HEIGHT + (((ir.2.keys.length : Int) - 1) * FEATURE_HEIGHT)
                + PADDING_TOP + PADDING_BOTTOM)
            ++ panelTail ir.1 ir.2 (clock ir.1)))) := by
  induction stats generalizing index svgContent with
  | nil => simp [renderPanels, concatAll, String.append_empty]
  | cons r rest ih =>
    have hr : IsStatRecord r := h r (List.mem_cons_self r rest)
    have hrest : ∀ r' ∈ rest, IsStatRecord r' := fun r' hm => h r' (List.mem_cons_of_mem r hm)
    simp only [renderPanels, renderPanel_of_statRecord _ _ _ _ hr, ih _ _ hrest,
      List.enumFrom_cons, List.map_cons, concatAll, String.append_assoc]

/-- The markup of a list of stat records, in the terms the source computes it. -/
theorem generateStatsBadgeSVG_of_statRecords (stats : List JSObject) (clock : Nat → String)
    (h : ∀ r ∈ stats, IsStatRecord r) :
    generateStatsBadgeSVG stats clock
      = .ok (svgOpen (PLATFORM_WIDTH * stats.length) ++
          (concatAll (stats.enum.map (fun ir =>
            badgeBackground (ir.1 * PLATFORM_WIDTH)
                (BASE_HEIGHT + (((ir.2.keys.length : Int) - 1) * FEATURE_HEIGHT)
                  + PADDING_TOP + PADDING_BOTTOM)
              ++ panelTail ir.1 ir.2 (clock ir.1))) ++ "</svg>")) := by
  simp only [generateStatsBadgeSVG, renderPanels_of_statRecords clock stats 0 _ h, List.enum,
    String.append_assoc]

theorem length_filter_ne_of_nodup (l : List String) (a : String) (hn : l.Nodup) (ha : a ∈ l) :
    ((l.filter (fun k => k ≠ a)).length : Int) = (l.length : Int) - 1 := by
  induction l with
  | nil => simp at ha
  | cons b rest ih =>
    rw [List.nodup_cons] at hn
    by_cases hb : b = a
    · subst hb
      have hall : rest.filter (fun k => k ≠ b) = rest := by
        apply List.filter_eq_self.mpr
        intro k hk
        have : k ≠ b := fun e => hn.1 (e ▸ hk)
        simpa using this
      have hall' : rest.filter (fun k => !decide (k = b)) = rest := by simpa using hall
      simp [List.filter_cons, hall']
    · have ha' : a ∈ rest := by
        rcases List.mem_cons.mp ha with e | e
        · exact absurd e.symm hb
        · exact e
      have := ih hn.2 ha'
      simp only [List.filter_cons, ne_eq, hb, not_false_eq_true, decide_True, if_true,
        List.length_cons, Nat.cast_add, Nat.cast_one]
      simp only [ne_eq] at this
      omega

theorem keys_length_of_statRecord (r : JSObject) (h : IsStatRecord r) :
    (r.keys.length : Int) - 1 = (featureCount r : Int) := by
  obtain ⟨platform, hp⟩ := h
  have hmem : "platform" ∈ r.keys := by
    by_contra hc
    have hnone := (assocGet_eq_none_iff "platform" r.entries).mpr hc
    simp [JSObject.get, hnone] at hp
  have := length_filter_ne_of_nodup r.keys "platform" r.nodup hmem
  simp only [featureCount, featureKeys]
  omega

theorem renderPanel_of_not_statRecord (svgContent : String) (r : JSObject) (index : Nat)
    (localeNow : String) (h : ¬ IsStatRecord r) :
    ∃ e, renderPanel svgContent r index localeNow = .error e := by
  cases hp : r.get "platform" with
  | str platform => exact absurd ⟨platform, hp⟩ h
  | undefined =>
    exact ⟨"TypeError: Cannot read properties of undefined (reading \x27replace\x27)", by
      simp only [renderPanel, hp]⟩
  | null =>
    exact ⟨"TypeError: Cannot read properties of null (reading \x27replace\x27)", by
      simp only [renderPanel, hp]⟩
  | bool b => exact ⟨"TypeError: platform.replace is not a function", by
      simp only [renderPanel, hp]⟩
  | num n => exact ⟨"TypeError: platform.replace is not a function", by
      simp only [renderPanel, hp]⟩
  | raw text => exact ⟨"TypeError: platform.replace is not a function", by
      simp only [renderPanel, hp]⟩

theorem renderPanels_of_not_statRecord (clock : Nat → String) (stats : List JSObject)
    (index : Nat) (svgContent : String) (h : ∃ r ∈ stats, ¬ IsStatRecord r) :
    ∃ e, renderPanels clock stats index svgContent = .error e := by
  induction stats generalizing index svgContent with
  | nil =>
    obtain ⟨r, hm, _⟩ := h
    simp at hm
  | cons r rest ih =>
    by_cases hr : IsStatRecord r
    · have hrest : ∃ r' ∈ rest, ¬ IsStatRecord r' := by
        obtain ⟨r', hm, hn⟩ := h
        rcases List.mem_cons.mp hm with e | hm
        · exact absurd (e ▸ hr) hn
        · exact ⟨r', hm, hn⟩
      obtain ⟨e, he⟩ := ih (index + 1)
        (svgContent ++
          (badgeBackground (index * PLATFORM_WIDTH)
              (BASE_HEIGHT + (((r.keys.length : Int) - 1) * FEATURE_HEIGHT)
                + PADDING_TOP + PADDING_BOTTOM)
            ++ panelTail index r (clock index))) hrest
      exact ⟨e, by simp only [renderPanels, renderPanel_of_statRecord _ _ _ _ hr, he]⟩
    · obtain ⟨e, he⟩ := renderPanel_of_not_statRecord svgContent r index (clock index) hr
      exact ⟨e, by simp only [renderPanels, he]⟩

/-- The renderer throws as soon as one record carries no string `platform`. -/
theorem generateStatsBadgeSVG_of_not_statRecord (stats : List JSObject) (clock : Nat → String)
    (h : ∃ r ∈ stats, ¬ IsStatRecord r) :
    ∃ e, generateStatsBadgeSVG stats clock = .error e := by
  obtain ⟨e, he⟩ := renderPanels_of_not_statRecord clock stats 0
    (svgOpen (PLATFORM_WIDTH * stats.length)) h
  exact ⟨e, by simp only [generateStatsBadgeSVG, he]⟩

/-! ## Lemmas on the cache -/

theorem cache_get_set_self (cache : StatsCache) (key : String) (value : CacheEntry) :
    (cache.set key value).get key = some value :=
  assocGet_set_self key value cache.entries

theorem cache_get_set_other (cache : StatsCache) (key key' : String) (value : CacheEntry)
    (h : key' ≠ key) : (cache.set key value).get key' = cache.get key' :=
  assocGet_set_other key key' value cache.entries h

theorem assocDelete_middle {β : Type} (k : String) (v : β) (kept rest : List (String × β))
    (hn : (assocKeys (kept ++ (k, v) :: rest)).Nodup) :
    assocDelete k (kept ++ (k, v) :: rest) = kept ++ rest := by
  simp only [assocKeys, List.map_append, List.map_cons] at hn
  have h₁ := List.nodup_append.mp hn
  have hrest := List.nodup_cons.mp h₁.2.1
  have hk_kept : ∀ kv ∈ kept, kv.1 ≠ k := by
    intro kv hkv e
    exact h₁.2.2 (List.mem_map.mpr ⟨kv, hkv, rfl⟩) (e ▸ List.mem_cons_self _ _)
  have hk_rest : ∀ kv ∈ rest, kv.1 ≠ k := by
    intro kv hkv e
    exact hrest.1 (e ▸ List.mem_map.mpr ⟨kv, hkv, rfl⟩)
  have e₁ : kept.filter (fun kv => decide (kv.1 ≠ k)) = kept :=
    List.filter_eq_self.mpr (fun kv hkv => by simpa using hk_kept kv hkv)
  have e₂ : rest.filter (fun kv => decide (kv.1 ≠ k)) = rest :=
    List.filter_eq_self.mpr (fun kv hkv => by simpa using hk_rest kv hkv)
  simp only [assocDelete, List.filter_append, List.filter_cons, e₁, e₂]
  simp

theorem sweepLoop_entries (now : Int) (todo kept : List (String × CacheEntry))
    (cache : StatsCache) (h : cache.entries = kept ++ todo) :
    (sweepLoop now todo cache).entries
      = kept ++ todo.filter (fun kv => decide (now - kv.2.timestamp ≤ 3600000)) := by
  induction todo generalizing kept cache with
  | nil => simp [sweepLoop, h]
  | cons kv rest ih =>
    obtain ⟨key, value⟩ := kv
    by_cases hx : now - value.timestamp > 3600000
    · have hdel : (cache.delete key).entries = kept ++ rest := by
        have hn := cache.nodup
        rw [h] at hn
        simp only [StatsCache.delete, h]
        exact assocDelete_middle key value kept rest hn
      have hle : ¬ now - value.timestamp ≤ 3600000 := by omega
      simp only [sweepLoop, hx, if_true, List.filter_cons, hle, decide_False]
      simpa using ih kept (cache.delete key) hdel
    · have hle : now - value.timestamp ≤ 3600000 := by omega
      have h' : cache.entries = (kept ++ [(key, value)]) ++ rest := by simp [h]
      simp only [sweepLoop, hx, if_false, List.filter_cons, hle, decide_True, if_true]
      simpa using ih (kept ++ [(key, value)]) cache h'

theorem sweep_entries (cache : StatsCache) (now : Int) :
    (sweep cache now).entries
      = cache.entries.filter (fun kv => decide (now - kv.2.timestamp ≤ 3600000)) := by
  simpa using sweepLoop_entries now cache.entries [] cache (by simp)

theorem sweep_get (cache : StatsCache) (now : Int) (key : String) :
    (sweep cache now).get key
      = (cache.get key).filter (fun entry => decide (now - entry.timestamp ≤ 3600000)) := by
  simp only [StatsCache.get, sweep_entries]
  exact assocGet_filter (fun entry => decide (now - entry.timestamp ≤ 3600000)) key
    cache.entries cache.nodup

theorem badgeHandler_of_fresh (cache : StatsCache) (statsKey : String) (now : Int)
    (clock : Nat → String) (entry : CacheEntry) (hget : cache.get statsKey = some entry)
    (hfresh : now - entry.timestamp ≤ 3600000) :
    badgeHandler cache statsKey now clock
      = sendBadge (generateStatsBadgeSVG entry.stats clock) := by
  have hx : ¬ now - entry.timestamp > 3600000 := by omega
  simp [badgeHandler, hget, hx]

theorem badgeHandler_of_expired (cache : StatsCache) (statsKey : String) (now : Int)
    (clock : Nat → String) (entry : CacheEntry) (hget : cache.get statsKey = some entry)
    (hold : now - entry.timestamp > 3600000) :
    badgeHandler cache statsKey now clock = badgeNotFound := by
  simp [badgeHandler, hget, hold]

theorem badgeHandler_of_absent (cache : StatsCache) (statsKey : String) (now : Int)
    (clock : Nat → String) (hget : cache.get statsKey = none) :
    badgeHandler cache statsKey now clock = badgeNotFound := by
  simp [badgeHandler, hget]

theorem statRecords_of_get (cache : StatsCache) (statsKey : String) (entry : CacheEntry)
    (hc : cache.HoldsStatRecords) (hget : cache.get statsKey = some entry) :
    ∀ r ∈ entry.stats, IsStatRecord r :=
  hc (statsKey, entry) (mem_of_assocGet statsKey entry cache.entries hget)

theorem sampleRecord_isStatRecord : IsStatRecord sampleRecord :=
  ⟨"github", by decide⟩

theorem sampleCache_holdsStatRecords : sampleCache.HoldsStatRecords := by
  intro kv hkv r hr
  have hkv' : kv = ("a3f1", ⟨[sampleRecord], 1000⟩) := by
    simpa [sampleCache, storeStats, StatsCache.set, StatsCache.empty, assocSet] using hkv
  subst hkv'
  have hr' : r = sampleRecord := by simpa using hr
  subst hr'
  exact sampleRecord_isStatRecord

theorem sampleCache_get : sampleCache.get "a3f1" = some ⟨[sampleRecord], 1000⟩ := by
  decide

theorem sweep_keeps_fresh_get (cache : StatsCache) (now : Int) (key : String)
    (entry : CacheEntry) :
    (sweep cache now).get key = some entry →
      cache.get key = some entry := by
  rw [sweep_get]
  cases hget : cache.get key with
  | none => simp [Option.filter]
  | some e =>
    by_cases hle : now - e.timestamp ≤ 3600000
    · simp [Option.filter, hle]
    · simp [Option.filter, hle]

theorem sampleRecordLeetcode_isStatRecord : IsStatRecord sampleRecordLeetcode :=
  ⟨"leetcode_stats", by decide⟩

theorem sampleRecords_areStatRecords :
    ∀ r ∈ [sampleRecord, sampleRecordLeetcode], IsStatRecord r := by
  intro r hr
  rcases List.mem_cons.mp hr with e | hr
  · exact e ▸ sampleRecord_isStatRecord
  · rcases List.mem_cons.mp hr with e | hr
    · exact e ▸ sampleRecordLeetcode_isStatRecord
    · simp at hr

theorem sweep_holdsStatRecords (cache : StatsCache) (now : Int)
    (hc : cache.HoldsStatRecords) : (sweep cache now).HoldsStatRecords := by
  intro kv hkv r hr
  rw [sweep_entries] at hkv
  exact hc kv (List.mem_of_mem_filter hkv) r hr

/-! ## Lemmas on the feature projection -/

theorem object_mem_keys_set (o : JSObject) (k k' : String) (v : JSValue) :
    k' ∈ (o.set k v).keys ↔ (k' = k ∨ k' ∈ o.keys) :=
  mem_keys_objectDefine k k' v o.entries

theorem object_keys_set_of_mem (o : JSObject) (k : String) (v : JSValue) (h : k ∈ o.keys) :
    (o.set k v).keys = o.keys :=
  objectDefine_keys_of_mem k v o.entries h

theorem object_get_set_self (o : JSObject) (k : String) (v : JSValue) :
    (o.set k v).get k = v := by
  simp [JSObject.get, JSObject.set, assocGet_objectDefine_self]

theorem object_get_set_other (o : JSObject) (k k' : String) (v : JSValue) (h : k' ≠ k) :
    (o.set k v).get k' = o.get k' := by
  simp [JSObject.get, JSObject.set, assocGet_objectDefine_other k k' v o.entries h]

theorem object_get_of_not_mem_keys (o : JSObject) (k : String) (h : k ∉ o.keys) :
    o.get k = JSValue.undefined := by
  simp [JSObject.get, (assocGet_eq_none_iff k o.entries).mpr h]

/-- A read of a name that `Object.prototype` does not have gives the own property. -/
theorem object_read_eq_get (o : JSObject) (k : String)
    (h : assocGet k objectPrototype = none) : o.read k = o.get k := by
  simp only [JSObject.read, JSObject.get, h]
  cases assocGet k o.entries <;> rfl

/-- What the filtering loop returns on an object payload. -/
theorem filterFeatures_some (data : JSObject) (features : List String)
    (filteredData : JSObject) (nullProto : Bool) :
    ∃ result,
      filterFeatures (some data) features filteredData nullProto = .ok result ∧
      (∀ k, k ∈ result.keys →
        k ∈ filteredData.keys ∨ (k ∈ features ∧ data.read k ≠ JSValue.undefined)) ∧
      (∀ k, k ≠ "__proto__" → (k ∈ filteredData.keys ∨
        (k ∈ features ∧ data.read k ≠ JSValue.undefined)) → k ∈ result.keys) ∧
      (∀ k, k ≠ "__proto__" → result.get k =
        if k ∈ features ∧ data.read k ≠ JSValue.undefined then data.read k
        else filteredData.get k) := by
  induction features generalizing filteredData nullProto with
  | nil =>
    exact ⟨filteredData, rfl, fun k hk => Or.inl hk,
      fun k _ h => h.elim id (fun h' => absurd h'.1 (List.not_mem_nil k)), by simp⟩
  | cons feature rest ih =>
    by_cases hdef : data.read feature ≠ JSValue.undefined
    · by_cases hset : feature = "__proto__" ∧ nullProto = false ∧ feature ∉ filteredData.keys
      · obtain ⟨result, hres, hsub, hmem, hval⟩ :=
          ih filteredData (decide (data.read feature = JSValue.null))
        have hstep : filterFeatures (some data) (feature :: rest) filteredData nullProto
            = .ok result := by
          rw [filterFeatures, if_pos hdef, if_pos hset]
          exact hres
        refine ⟨result, hstep, ?_, ?_, ?_⟩
        · intro k hk
          rcases hsub k hk with h | ⟨h₁, h₂⟩
          · exact Or.inl h
          · exact Or.inr ⟨List.mem_cons_of_mem _ h₁, h₂⟩
        · intro k hk h
          apply hmem k hk
          rcases h with h | ⟨h₁, h₂⟩
          · exact Or.inl h
          · rcases List.mem_cons.mp h₁ with e | h₁
            · exact absurd (e.trans hset.1) hk
            · exact Or.inr ⟨h₁, h₂⟩
        · intro k hk
          rw [hval k hk]
          have hne : k ≠ feature := fun e => hk (e.trans hset.1)
          simp [hne]
      · obtain ⟨result, hres, hsub, hmem, hval⟩ :=
          ih (filteredData.set feature (data.read feature)) nullProto
        have hstep : filterFeatures (some data) (feature :: rest) filteredData nullProto
            = .ok result := by
          rw [filterFeatures, if_pos hdef, if_neg hset]
          exact hres
        refine ⟨result, hstep, ?_, ?_, ?_⟩
        · intro k hk
          rcases hsub k hk with h | ⟨h₁, h₂⟩
          · rcases (object_mem_keys_set _ _ _ _).mp h with e | h
            · exact Or.inr ⟨e ▸ List.mem_cons_self _ _, e ▸ hdef⟩
            · exact Or.inl h
          · exact Or.inr ⟨List.mem_cons_of_mem _ h₁, h₂⟩
        · intro k hk h
          apply hmem k hk
          rcases h with h | ⟨h₁, h₂⟩
          · exact Or.inl ((object_mem_keys_set _ _ _ _).mpr (Or.inr h))
          · rcases List.mem_cons.mp h₁ with e | h₁
            · exact Or.inl ((object_mem_keys_set _ _ _ _).mpr (Or.inl e))
            · exact Or.inr ⟨h₁, h₂⟩
        · intro k hk
          rw [hval k hk]
          by_cases hkf : k = feature
          · subst hkf
            by_cases hr : k ∈ rest
            · simp [hr, hdef]
            · simp [hr, hdef, object_get_set_self]
          · simp [hkf, object_get_set_other _ _ _ _ hkf]
    · obtain ⟨result, hres, hsub, hmem, hval⟩ := ih filteredData nullProto
      have hstep : filterFeatures (some data) (feature :: rest) filteredData nullProto
          = .ok result := by
        rw [filterFeatures, if_neg hdef]
        exact hres
      refine ⟨result, hstep, ?_, ?_, ?_⟩
      · intro k hk
        rcases hsub k hk with h | ⟨h₁, h₂⟩
        · exact Or.inl h
        · exact Or.inr ⟨List.mem_cons_of_mem _ h₁, h₂⟩
      · intro k hk h
        apply hmem k hk
        rcases h with h | ⟨h₁, h₂⟩
        · exact Or.inl h
        · rcases List.mem_cons.mp h₁ with e | h₁
          · exact absurd (e ▸ h₂) hdef
          · exact Or.inr ⟨h₁, h₂⟩
      · intro k hk
        rw [hval k hk]
        by_cases hkf : k = feature
        · subst hkf
          have hu : data.read k = JSValue.undefined := by simpa using hdef
          by_cases hr : k ∈ rest
          · simp [hr, hu]
          · simp [hr, hu]
        · simp [hkf]

theorem spreadList_mem_keys (l : List (String × JSValue)) (target : JSObject) (k : String) :
    k ∈ (l.foldl (fun acc kv => acc.set kv.1 kv.2) target).keys
      ↔ (k ∈ target.keys ∨ k ∈ assocKeys l) := by
  induction l generalizing target with
  | nil => simp [assocKeys]
  | cons kv rest ih =>
    obtain ⟨k', v'⟩ := kv
    rw [List.foldl_cons, ih (target.set k' v'), object_mem_keys_set]
    simp only [assocKeys, List.map_cons, List.mem_cons]
    constructor
    · rintro ((e | h) | h)
      · exact Or.inr (Or.inl e)
      · exact Or.inl h
      · exact Or.inr (Or.inr h)
    · rintro (h | e | h)
      · exact Or.inl (Or.inr h)
      · exact Or.inl (Or.inl e)
      · exact Or.inr h

theorem spreadList_get (l : List (String × JSValue)) (target : JSObject) (k : String)
    (hn : (assocKeys l).Nodup) :
    (l.foldl (fun acc kv => acc.set kv.1 kv.2) target).get k
      = (assocGet k l).getD (target.get k) := by
  induction l generalizing target with
  | nil => simp [assocGet]
  | cons kv rest ih =>
    obtain ⟨k', v'⟩ := kv
    simp only [assocKeys, List.map_cons, List.nodup_cons] at hn
    rw [List.foldl_cons, ih (target.set k' v') hn.2]
    by_cases hk : k' = k
    · subst hk
      have hnone : assocGet k' rest = none := (assocGet_eq_none_iff k' rest).mpr hn.1
      simp [assocGet, hnone, object_get_set_self]
    · have hk' : k ≠ k' := fun e => hk e.symm
      simp [assocGet, hk, object_get_set_other _ _ _ _ hk']

theorem mem_featureKeys (r : JSObject) (k : String) :
    k ∈ featureKeys r ↔ k ∈ r.keys ∧ k ≠ "platform" := by
  simp [featureKeys]

theorem mem_featureKeys_withPlatform (platform : String) (filteredData : JSObject)
    (k : String) :
    k ∈ featureKeys (withPlatform platform filteredData)
      ↔ (k ∈ filteredData.keys ∧ k ≠ "platform") := by
  rw [mem_featureKeys]
  simp only [withPlatform, JSObject.spread, spreadList_mem_keys, object_mem_keys_set]
  constructor
  · rintro ⟨(e | h) | h, hne⟩
    · exact absurd e hne
    · simp [JSObject.keys, JSObject.empty, assocKeys] at h
    · exact ⟨h, hne⟩
  · rintro ⟨h, hne⟩
    exact ⟨Or.inr h, hne⟩

theorem get_withPlatform (platform : String) (filteredData : JSObject) (k : String)
    (hk : k ≠ "platform") :
    (withPlatform platform filteredData).get k = filteredData.get k := by
  simp only [withPlatform, JSObject.spread,
    spreadList_get filteredData.entries _ k filteredData.nodup,
    object_get_set_other _ _ _ _ hk]
  cases h : assocGet k filteredData.entries with
  | none => simp [JSObject.get, h, JSObject.empty, assocGet]
  | some v => simp [JSObject.get, h]

theorem featureKeys_nodup (r : JSObject) : (featureKeys r).Nodup :=
  List.Nodup.sublist (List.filter_sublist _) r.nodup

/-- The record both handlers build for an entry with a feature list, on an object
payload: its feature keys are requested features whose value read from the payload is
not `undefined`, and every such feature other than `__proto__` is a feature key, with
the value read. -/
theorem projection_with_features (platformInfo : PlatformInfo) (features : List String)
    (data : JSObject) (hf : platformInfo.features = some features) :
    ∃ r, projectBadge platformInfo (some data) = .ok r ∧
      projectStats platformInfo (some data) = .ok (some r) ∧
      (∀ k ∈ featureKeys r,
        (k ∈ features ∧ k ≠ "platform" ∧ data.read k ≠ JSValue.undefined)) ∧
      (∀ k, k ≠ "__proto__" →
        (k ∈ features ∧ k ≠ "platform" ∧ data.read k ≠ JSValue.undefined) →
        k ∈ featureKeys r) ∧
      (∀ k ∈ featureKeys r, k ≠ "__proto__" → r.get k = data.read k) := by
  obtain ⟨fd, hres, hsub, hmem, hval⟩ :=
    filterFeatures_some data features JSObject.empty false
  have hempty : ∀ k, k ∉ JSObject.empty.keys := by
    intro k; simp [JSObject.keys, JSObject.empty, assocKeys]
  refine ⟨withPlatform platformInfo.platform fd, ?_, ?_, ?_, ?_, ?_⟩
  · simp [projectBadge, hf, hres]
  · simp [projectStats, hf, hres]
  · intro k hk
    obtain ⟨hin, hne⟩ := (mem_featureKeys_withPlatform _ _ k).mp hk
    rcases hsub k hin with h | ⟨h₁, h₂⟩
    · exact absurd h (hempty k)
    · exact ⟨h₁, hne, h₂⟩
  · intro k hk ⟨h₁, h₂, h₃⟩
    exact (mem_featureKeys_withPlatform _ _ k).mpr ⟨hmem k hk (Or.inr ⟨h₁, h₃⟩), h₂⟩
  · intro k hk hproto
    obtain ⟨hin, hne⟩ := (mem_featureKeys_withPlatform _ _ k).mp hk
    rcases hsub k hin with h | ⟨h₁, h₂⟩
    · exact absurd h (hempty k)
    · rw [get_withPlatform _ _ _ hne, hval k hproto]
      simp [h₁, h₂]

/-! ## Generate-badge stores stat records -/

theorem filterFeatures_keys_subset (fullData : Option JSObject) (features : List String)
    (filteredData result : JSObject) (nullProto : Bool)
    (h : filterFeatures fullData features filteredData nullProto = .ok result) :
    ∀ k ∈ result.keys, k ∈ filteredData.keys ∨ k ∈ features := by
  cases fullData with
  | none =>
    cases features with
    | nil =>
      simp only [filterFeatures, Except.ok.injEq] at h
      subst h
      intro k hk
      exact Or.inl hk
    | cons feature rest => simp [filterFeatures] at h
  | some data =>
    obtain ⟨result', hres, hsub, _, _⟩ := filterFeatures_some data features filteredData nullProto
    rw [hres] at h
    cases h
    intro k hk
    rcases hsub k hk with h₁ | h₂
    · exact Or.inl h₁
    · exact Or.inr h₂.1

theorem withPlatform_isStatRecord (platform : String) (filteredData : JSObject)
    (h : "platform" ∉ filteredData.keys) :
    (withPlatform platform filteredData).get "platform" = JSValue.str platform := by
  simp only [withPlatform, JSObject.spread,
    spreadList_get filteredData.entries _ "platform" filteredData.nodup,
    object_get_set_self, (assocGet_eq_none_iff "platform" filteredData.entries).mpr h]
  rfl

/-- A record built by generate-badge for an entry that does not request the key
`platform` carries the requested platform identifier. -/
theorem projectBadge_isStatRecord (platformInfo : PlatformInfo) (fullData : Option JSObject)
    (r : JSObject) (hreq : ∀ features, platformInfo.features = some features →
      "platform" ∉ features)
    (h : projectBadge platformInfo fullData = .ok r) : IsStatRecord r := by
  refine ⟨platformInfo.platform, ?_⟩
  cases hf : platformInfo.features with
  | none =>
    simp only [projectBadge, hf, Except.ok.injEq] at h
    subst h
    exact withPlatform_isStatRecord _ _ (by simp [JSObject.keys, JSObject.empty, assocKeys])
  | some features =>
    simp only [projectBadge, hf] at h
    cases hres : filterFeatures fullData features JSObject.empty false with
    | error e => simp [hres] at h
    | ok fd =>
      simp only [hres, Except.ok.injEq] at h
      subst h
      apply withPlatform_isStatRecord
      intro hin
      rcases filterFeatures_keys_subset fullData features JSObject.empty fd false hres _ hin with h₁ | h₂
      · simp [JSObject.keys, JSObject.empty, assocKeys] at h₁
      · exact hreq features hf h₂

theorem awaitAll_forall {α β : Type} (f : α → Except String β) (P : β → Prop)
    (l : List α) (bs : List β) (hf : ∀ a ∈ l, ∀ b, f a = .ok b → P b)
    (h : awaitAll f l = .ok bs) : ∀ b ∈ bs, P b := by
  induction l generalizing bs with
  | nil =>
    simp only [awaitAll, Except.ok.injEq] at h
    subst h
    simp
  | cons a rest ih =>
    simp only [awaitAll] at h
    cases ha : f a with
    | error e => simp [ha] at h
    | ok b =>
      cases hrest : awaitAll f rest with
      | error e => simp [ha, hrest] at h
      | ok bs' =>
        simp only [ha, hrest, Except.ok.injEq] at h
        subst h
        intro b' hb'
        rcases List.mem_cons.mp hb' with e | hb'
        · exact e ▸ hf a (List.mem_cons_self _ _) b ha
        · exact ih bs' (fun a' ha' => hf a' (List.mem_cons_of_mem _ ha')) hrest b' hb'

theorem mem_assocSet {β : Type} (k : String) (v : β) (l : List (String × β))
    (kv : String × β) (h : kv ∈ assocSet k v l) : kv = (k, v) ∨ kv ∈ l := by
  induction l with
  | nil => left; simpa [assocSet] using h
  | cons kv' rest ih =>
    obtain ⟨k', v'⟩ := kv'
    by_cases hk : k' = k
    · simp only [assocSet, hk, if_true] at h
      rcases List.mem_cons.mp h with e | h
      · exact Or.inl e
      · exact Or.inr (List.mem_cons_of_mem _ h)
    · simp only [assocSet, hk, if_false] at h
      rcases List.mem_cons.mp h with e | h
      · exact Or.inr (e ▸ List.mem_cons_self _ _)
      · rcases ih h with e | h
        · exact Or.inl e
        · exact Or.inr (List.mem_cons_of_mem _ h)

/-- The cache keeps holding stat records across generate-badge, for requests that do not
list the key `platform` among the features. -/
theorem generateBadgeHandler_holdsStatRecords (up : Upstream)
    (platforms : Option (List PlatformInfo)) (statsKey : String) (now : Int)
    (cache : StatsCache) (hc : cache.HoldsStatRecords)
    (hreq : ∀ ps, platforms = some ps → ∀ platformInfo ∈ ps, ∀ features,
      platformInfo.features = some features → "platform" ∉ features) :
    (generateBadgeHandler up platforms statsKey now cache).2.HoldsStatRecords := by
  cases platforms with
  | none => exact hc
  | some ps =>
    cases ps with
    | nil => exact hc
    | cons first others =>
      simp only [generateBadgeHandler]
      cases hall : awaitAll (badgeStatsFor up) (first :: others) with
      | error e => exact hc
      | ok statsResults =>
        have hrec : ∀ r ∈ statsResults, IsStatRecord r := by
          apply awaitAll_forall (badgeStatsFor up) IsStatRecord (first :: others) statsResults _ hall
          intro platformInfo hin r hr
          simp only [badgeStatsFor] at hr
          cases hfetch : fetchPlatformData up platformInfo.platform platformInfo.username with
          | error e => simp [hfetch] at hr
          | ok fullData =>
            simp only [hfetch] at hr
            exact projectBadge_isStatRecord platformInfo fullData r
              (hreq (first :: others) rfl platformInfo hin) hr
        intro kv hkv r hr
        have hkv : kv ∈ assocSet statsKey ⟨statsResults, now⟩ cache.entries := hkv
        rcases mem_assocSet statsKey ⟨statsResults, now⟩ cache.entries kv hkv with e | hmem
        · subst e
          exact hrec r hr
        · exact hc kv hmem r hr

/-! ## Lemmas on the feature rows -/

theorem featureRows_enumFrom (xOffset : Int) (entries : List (String × JSValue))
    (start : Int) (n : Nat) :
    featureRows xOffset entries start
      = concatAll (((entries.filter (fun kv => kv.1 ≠ "platform")).enumFrom n).map
          (fun jkv => featureRow xOffset
            (PADDING_TOP + 60 + ((start + ((jkv.1 : Int) - (n : Int))) * FEATURE_HEIGHT))
            (formatKey jkv.2.1) jkv.2.2)) := by
  induction entries generalizing start n with
  | nil => simp [featureRows, renderFeatures, concatAll]
  | cons kv rest ih =>
    obtain ⟨key, value⟩ := kv
    by_cases h : key = "platform"
    · have hstep : featureRows xOffset ((key, value) :: rest) start
          = featureRows xOffset rest start := by
        simp [featureRows, renderFeatures, h]
      rw [hstep, ih start n]
      simp [List.filter_cons, h]
    · have hstep : featureRows xOffset ((key, value) :: rest) start
          = featureRow xOffset (PADDING_TOP + 60 + (start * FEATURE_HEIGHT)) (formatKey key) value
              ++ featureRows xOffset rest (start + 1) := by
        simp only [featureRows, renderFeatures, h, ne_eq, not_false_eq_true, if_true]
        rw [renderFeatures_snd, String.empty_append]
        rfl
      have hfun : (fun jkv : Nat × String × JSValue => featureRow xOffset
            (PADDING_TOP + 60 + ((start + 1 + ((jkv.1 : Int) - ((n + 1 : Nat) : Int)))
              * FEATURE_HEIGHT)) (formatKey jkv.2.1) jkv.2.2)
          = (fun jkv : Nat × String × JSValue => featureRow xOffset
            (PADDING_TOP + 60 + ((start + ((jkv.1 : Int) - (n : Int))) * FEATURE_HEIGHT))
            (formatKey jkv.2.1) jkv.2.2) := by
        funext jkv
        have : start + 1 + ((jkv.1 : Int) - ((n + 1 : Nat) : Int))
            = start + ((jkv.1 : Int) - (n : Int)) := by
          push_cast; ring
        rw [this]
      rw [hstep, ih (start + 1) (n + 1), hfun]
      simp only [List.filter_cons, h, ne_eq, not_false_eq_true, decide_True, if_true,
        List.enumFrom_cons, List.map_cons, concatAll, sub_self, add_zero]

/-- The rows of a record: one per feature entry, the `j`-th at baseline `80 + 25 j`. -/
theorem featureRows_eq (xOffset : Int) (r : JSObject) :
    featureRows xOffset r.entries 0
      = concatAll ((featureEntries r).enum.map (fun jkv =>
          featureRow xOffset (80 + 25 * (jkv.1 : Int)) (formatKey jkv.2.1) jkv.2.2)) := by
  rw [featureRows_enumFrom xOffset r.entries 0 0]
  have hfun : (fun jkv : Nat × String × JSValue => featureRow xOffset
        (PADDING_TOP + 60 + (((0 : Int) + ((jkv.1 : Int) - ((0 : Nat) : Int))) * FEATURE_HEIGHT))
        (formatKey jkv.2.1) jkv.2.2)
      = (fun jkv : Nat × String × JSValue =>
          featureRow xOffset (80 + 25 * (jkv.1 : Int)) (formatKey jkv.2.1) jkv.2.2) := by
    funext jkv
    have : PADDING_TOP + 60 + (((0 : Int) + ((jkv.1 : Int) - ((0 : Nat) : Int))) * FEATURE_HEIGHT)
        = 80 + 25 * (jkv.1 : Int) := by
      simp only [PADDING_TOP, FEATURE_HEIGHT]; push_cast; ring
    rw [this]
  rw [hfun]
  rfl

theorem featureEntries_keys (r : JSObject) :
    (featureEntries r).map Prod.fst = featureKeys r := by
  simp only [featureEntries, featureKeys, JSObject.keys, assocKeys, List.filter_map]
  rfl

theorem featureEntries_length (r : JSObject) :
    (featureEntries r).length = featureCount r := by
  rw [featureCount, ← featureEntries_keys, List.length_map]

/-- The panel of a stat record, rows and heights written out. -/
theorem renderPanel_rows (svgContent : String) (r : JSObject) (index : Nat)
    (localeNow : String) (h : IsStatRecord r) :
    renderPanel svgContent r index localeNow
      = .ok (svgContent ++
          (badgeBackground (index * PLATFORM_WIDTH) (150 + 25 * (featureCount r : Int)) ++
            (panelHeader (index * PLATFORM_WIDTH) (platformName r) ++
              (concatAll ((featureEntries r).enum.map (fun jkv =>
                  featureRow (index * PLATFORM_WIDTH) (80 + 25 * (jkv.1 : Int))
                    (formatKey jkv.2.1) jkv.2.2)) ++
                lastUpdated (index * PLATFORM_WIDTH) (150 + 25 * (featureCount r : Int))
                  localeNow)))) := by
  have hh : BASE_HEIGHT + (((r.keys.length : Int) - 1) * FEATURE_HEIGHT)
        + PADDING_TOP + PADDING_BOTTOM = 150 + 25 * (featureCount r : Int) := by
    rw [keys_length_of_statRecord r h]
    simp only [BASE_HEIGHT, FEATURE_HEIGHT, PADDING_TOP, PADDING_BOTTOM]
    ring
  rw [renderPanel_of_statRecord svgContent r index localeNow h]
  simp only [panelTail, hh, featureRows_eq]

/-! ## Lemmas on the Markdown renderer -/

theorem markdownFeatures_eq (descriptor : PlatformDescriptor)
    (entries : List (String × JSValue)) (markdown : String) :
    markdownFeatures descriptor entries markdown
      = markdown ++ concatAll
          ((entries.filter (fun fv => decide (fv.2 ≠ JSValue.null ∧ fv.2 ≠ JSValue.undefined))).map
            (fun fv => "- " ++ featureLabel descriptor fv.1 ++ ": " ++ fv.2.toText ++ "\n")) := by
  induction entries generalizing markdown with
  | nil => simp [markdownFeatures, concatAll, String.append_empty]
  | cons fv rest ih =>
    obtain ⟨feature, value⟩ := fv
    by_cases hv : value ≠ JSValue.null ∧ value ≠ JSValue.undefined
    · simp only [markdownFeatures, hv, and_self, if_true, ne_eq, not_false_eq_true, ih,
        List.filter_cons, decide_True, List.map_cons, concatAll, String.append_assoc]
    · simp only [markdownFeatures, hv, if_false, ih, List.filter_cons, decide_False]
      simp

/-- The text of one platform section, for a platform with a descriptor. -/
theorem markdownPlatforms_of_known (platformData : List (String × JSObject))
    (markdown : String)
    (hd : ∀ pd ∈ platformData, assocGet pd.1 PLATFORMS ≠ none) :
    markdownPlatforms platformData markdown
      = .ok (markdown ++ concatAll (platformData.map (fun pd =>
          match assocGet pd.1 PLATFORMS with
          | some descriptor =>
            "### " ++ descriptor.name ++ "\n" ++
              (concatAll ((pd.2.entries.filter
                  (fun fv => decide (fv.2 ≠ JSValue.null ∧ fv.2 ≠ JSValue.undefined))).map
                (fun fv => "- " ++ featureLabel descriptor fv.1 ++ ": " ++ fv.2.toText ++ "\n"))
                ++ "\n")
          | none => ""))) := by
  induction platformData generalizing markdown with
  | nil => simp [markdownPlatforms, concatAll, String.append_empty]
  | cons pd rest ih =>
    obtain ⟨platform, data⟩ := pd
    have hrest : ∀ pd ∈ rest, assocGet pd.1 PLATFORMS ≠ none :=
      fun pd hm => hd pd (List.mem_cons_of_mem _ hm)
    have hhere := hd (platform, data) (List.mem_cons_self _ _)
    cases hdesc : assocGet platform PLATFORMS with
    | none => exact absurd hdesc hhere
    | some descriptor =>
      simp only [markdownPlatforms, hdesc, ih _ hrest, markdownFeatures_eq, List.map_cons,
        concatAll, String.append_assoc]

/-- A platform key that `PLATFORMS` neither has nor inherits makes
`generateMarkdownSnippet` throw. -/
theorem markdownPlatforms_of_unknown (platformData : List (String × JSObject))
    (markdown : String)
    (hu : ∃ pd ∈ platformData, assocGet pd.1 PLATFORMS = none ∧ inheritedName pd.1 = none) :
    ∃ e, markdownPlatforms platformData markdown = .error e := by
  induction platformData generalizing markdown with
  | nil =>
    obtain ⟨pd, hm, _⟩ := hu
    simp at hm
  | cons pd rest ih =>
    obtain ⟨platform, data⟩ := pd
    have hrest : (assocGet platform PLATFORMS ≠ none ∨ inheritedName platform ≠ none) →
        ∃ pd ∈ rest, assocGet pd.1 PLATFORMS = none ∧ inheritedName pd.1 = none := by
      intro hne
      obtain ⟨pd, hm, hn₁, hn₂⟩ := hu
      rcases List.mem_cons.mp hm with e | hm
      · subst e
        rcases hne with h | h
        · exact absurd hn₁ h
        · exact absurd hn₂ h
      · exact ⟨pd, hm, hn₁, hn₂⟩
    cases hdesc : assocGet platform PLATFORMS with
    | some descriptor =>
      obtain ⟨e, he⟩ := ih
        (markdownFeatures descriptor data.entries
          (markdown ++ ("### " ++ descriptor.name ++ "\n")) ++ "\n")
        (hrest (Or.inl (by simp [hdesc])))
      exact ⟨e, by simp only [markdownPlatforms, hdesc, he]⟩
    | none =>
      cases hname : inheritedName platform with
      | none =>
        exact ⟨"TypeError: Cannot read properties of undefined (reading \x27name\x27)", by
          simp only [markdownPlatforms, hdesc, hname]⟩
      | some name =>
        cases hfirst : firstPrinted data.entries with
        | some feature =>
          exact ⟨"TypeError: Cannot read properties of undefined (reading \x27" ++ feature
            ++ "\x27)", by simp only [markdownPlatforms, hdesc, hname, hfirst]⟩
        | none =>
          obtain ⟨e, he⟩ := ih ((markdown ++ ("### " ++ name ++ "\n")) ++ "\n")
            (hrest (Or.inr (by simp [hname])))
          exact ⟨e, by simp only [markdownPlatforms, hdesc, hname, hfirst, he]⟩

/-! ## Lemmas on the fetcher and the handlers -/

theorem fetchPlatformData_unsupported (up : Upstream) (platform username : String)
    (h₁ : platform ≠ "github") (h₂ : platform ≠ "leetcode_stats")
    (h₃ : platform ≠ "leetcode_contests") :
    fetchPlatformData up platform username = .error "Unsupported platform" := by
  simp [fetchPlatformData, h₁, h₂, h₃]

theorem awaitAll_error_of_mem {α β : Type} (f : α → Except String β) (l : List α)
    (h : ∃ a ∈ l, ∃ e, f a = .error e) : ∃ e, awaitAll f l = .error e := by
  induction l with
  | nil =>
    obtain ⟨a, hm, _⟩ := h
    simp at hm
  | cons a rest ih =>
    cases ha : f a with
    | error e => exact ⟨e, by simp [awaitAll, ha]⟩
    | ok b =>
      have hrest : ∃ a' ∈ rest, ∃ e, f a' = .error e := by
        obtain ⟨a', hm, e, he⟩ := h
        rcases List.mem_cons.mp hm with e' | hm
        · subst e'
          rw [ha] at he
          cases he
        · exact ⟨a', hm, e, he⟩
      obtain ⟨e, he⟩ := ih hrest
      exact ⟨e, by simp [awaitAll, ha, he]⟩

theorem awaitAll_mem {α β : Type} (f : α → Except String β) (l : List α) (bs : List β)
    (h : awaitAll f l = .ok bs) : ∀ a ∈ l, ∃ b ∈ bs, f a = .ok b := by
  induction l generalizing bs with
  | nil => intro a hm; simp at hm
  | cons a rest ih =>
    simp only [awaitAll] at h
    cases ha : f a with
    | error e => simp [ha] at h
    | ok b =>
      cases hrest : awaitAll f rest with
      | error e => simp [ha, hrest] at h
      | ok bs' =>
        simp only [ha, hrest, Except.ok.injEq] at h
        subst h
        intro a' hm
        rcases List.mem_cons.mp hm with e | hm
        · subst e
          exact ⟨b, List.mem_cons_self _ _, ha⟩
        · obtain ⟨b', hb', hf⟩ := ih bs' hrest a' hm
          exact ⟨b', List.mem_cons_of_mem _ hb', hf⟩

theorem groupByPlatform_keys (stats : List (Option JSObject))
    (acc platformData : List (String × JSObject))
    (h : groupByPlatform stats acc = .ok platformData) :
    (∀ k ∈ assocKeys acc, k ∈ assocKeys platformData) ∧
    (∀ stat ∈ stats, ∃ data, stat = some data ∧
      ((data.get "platform").toText ≠ "__proto__" →
        (data.get "platform").toText ∈ assocKeys platformData)) := by
  induction stats generalizing acc with
  | nil =>
    simp only [groupByPlatform, Except.ok.injEq] at h
    subst h
    exact ⟨fun k hk => hk, fun stat hm => by simp at hm⟩
  | cons stat rest ih =>
    cases stat with
    | none => simp [groupByPlatform] at h
    | some data =>
      by_cases hproto : (data.get "platform").toText = "__proto__"
      · rw [groupByPlatform, if_pos hproto] at h
        obtain ⟨hacc, hrest⟩ := ih _ h
        refine ⟨hacc, ?_⟩
        intro stat hm
        rcases List.mem_cons.mp hm with e | hm
        · subst e
          exact ⟨data, rfl, fun hne => absurd hproto hne⟩
        · exact hrest stat hm
      · rw [groupByPlatform, if_neg hproto] at h
        obtain ⟨hacc, hrest⟩ := ih _ h
        refine ⟨?_, ?_⟩
        · intro k hk
          exact hacc k ((mem_keys_objectDefine _ _ _ _).mpr (Or.inr hk))
        · intro stat hm
          rcases List.mem_cons.mp hm with e | hm
          · subst e
            exact ⟨data, rfl, fun _ => hacc _ ((mem_keys_objectDefine _ _ _ _).mpr (Or.inl rfl))⟩
          · exact hrest stat hm

theorem exists_of_mem_assocKeys {β : Type} (k : String) (l : List (String × β))
    (h : k ∈ assocKeys l) : ∃ kv ∈ l, kv.1 = k := by
  simp only [assocKeys, List.mem_map] at h
  exact h

theorem github_fetch_of_profile (up : Upstream) (username : String)
    (data : Option JSObject) (h : up.githubUser username = .ok data) :
    fetchPlatformData up "github" username
      = .ok (some ((JSObject.spread JSObject.empty (data.getD JSObject.empty)).set
          "total_contributions"
          (.num ((match up.githubEvents username with
            | .ok length => length
            | .error _ => 0 : Nat) : Int)))) := by
  simp only [fetchPlatformData, h, if_true]

theorem spread_empty_mem_keys (o : JSObject) (k : String) :
    k ∈ (JSObject.spread JSObject.empty o).keys ↔ k ∈ o.keys := by
  simp only [JSObject.spread, spreadList_mem_keys]
  simp [JSObject.keys, JSObject.empty, assocKeys]

theorem spread_empty_get (o : JSObject) (k : String) :
    (JSObject.spread JSObject.empty o).get k = o.get k := by
  simp only [JSObject.spread, spreadList_get o.entries JSObject.empty k o.nodup]
  cases h : assocGet k o.entries with
  | none => simp [JSObject.get, h, JSObject.empty, assocGet]
  | some v => simp [JSObject.get, h]

/-! ## Lemmas on the row label -/

theorem char_isUpper_iff (c : Char) : c.isUpper = true ↔ 65 ≤ c.toNat ∧ c.toNat ≤ 90 := by
  simp only [Char.isUpper, Char.toNat, ge_iff_le, Bool.and_eq_true, decide_eq_true_eq,
    UInt32.le_def, BitVec.le_def]
  rfl

theorem char_isLower_iff (c : Char) : c.isLower = true ↔ 97 ≤ c.toNat ∧ c.toNat ≤ 122 := by
  simp only [Char.isLower, Char.toNat, ge_iff_le, Bool.and_eq_true, decide_eq_true_eq,
    UInt32.le_def, BitVec.le_def]
  rfl

theorem char_toUpper_of_lower (c : Char) (h : 97 ≤ c.toNat ∧ c.toNat ≤ 122) :
    65 ≤ c.toUpper.toNat ∧ c.toUpper.toNat ≤ 90 := by
  have e : c.toUpper = Char.ofNat (c.toNat - 32) := by
    simp only [Char.toUpper, ge_iff_le, h, and_self, if_true]
  rw [e]
  obtain ⟨h1, h2⟩ := h
  generalize c.toNat = n at *
  interval_cases n <;> decide

theorem char_toUpper_of_not_lower (c : Char) (h : ¬ (97 ≤ c.toNat ∧ c.toNat ≤ 122)) :
    c.toUpper = c := by
  simp only [Char.toUpper, ge_iff_le, h, if_false]

theorem char_toUpper_toUpper (c : Char) : c.toUpper.toUpper = c.toUpper := by
  by_cases h : 97 ≤ c.toNat ∧ c.toNat ≤ 122
  · have hr := char_toUpper_of_lower c h
    exact char_toUpper_of_not_lower _ (by omega)
  · rw [char_toUpper_of_not_lower c h, char_toUpper_of_not_lower c h]

theorem isWordChar_toUpper (c : Char) : isWordChar c.toUpper = isWordChar c := by
  by_cases h : 97 ≤ c.toNat ∧ c.toNat ≤ 122
  · have hr := char_toUpper_of_lower c h
    have h₁ : c.toUpper.isUpper = true := (char_isUpper_iff _).mpr hr
    have h₂ : c.isLower = true := (char_isLower_iff _).mpr h
    simp [isWordChar, Char.isAlphanum, Char.isAlpha, h₁, h₂]
  · rw [char_toUpper_of_not_lower c h]

theorem char_toUpper_ne_underscore (c : Char) (h : c ≠ '_') : c.toUpper ≠ '_' := by
  by_cases hl : 97 ≤ c.toNat ∧ c.toNat ≤ 122
  · have hr := char_toUpper_of_lower c hl
    intro e
    rw [e] at hr
    have : ('_' : Char).toNat = 95 := by decide
    omega
  · rw [char_toUpper_of_not_lower c hl]
    exact h

theorem capitalizeFrom_length (prevWord : Bool) (chars : List Char) :
    (capitalizeFrom prevWord chars).length = chars.length := by
  induction chars generalizing prevWord with
  | nil => rfl
  | cons c rest ih => simp [capitalizeFrom, ih]

theorem capitalizeFrom_get (prevWord : Bool) (chars : List Char) (i : Nat) :
    (capitalizeFrom prevWord chars).get? i
      = (chars.get? i).map (fun c =>
          if isWordChar c &&
              (match i with
               | 0 => !prevWord
               | j + 1 =>
                 match chars.get? j with
                 | some p => !isWordChar p
                 | none => true)
          then c.toUpper else c) := by
  induction chars generalizing prevWord i with
  | nil => simp [capitalizeFrom]
  | cons c rest ih =>
    cases i with
    | zero => simp [capitalizeFrom]
    | succ j =>
      simp only [capitalizeFrom, List.get?_cons_succ, ih]
      cases j with
      | zero => simp
      | succ k => simp

theorem capitalizeFrom_idem (prevWord : Bool) (chars : List Char) :
    capitalizeFrom prevWord (capitalizeFrom prevWord chars) = capitalizeFrom prevWord chars := by
  induction chars generalizing prevWord with
  | nil => rfl
  | cons c rest ih =>
    by_cases h : (isWordChar c && !prevWord) = true
    · simp only [capitalizeFrom, h, if_true, isWordChar_toUpper, char_toUpper_toUpper, ih]
    · have hb : (isWordChar c && !prevWord) = false := by simpa using h
      simp only [capitalizeFrom, hb, Bool.false_eq_true, if_false, ih]

theorem capitalizeFrom_no_underscore (prevWord : Bool) (chars : List Char)
    (h : ∀ c ∈ chars, c ≠ '_') : ∀ c ∈ capitalizeFrom prevWord chars, c ≠ '_' := by
  induction chars generalizing prevWord with
  | nil => intro c hc; simp [capitalizeFrom] at hc
  | cons c rest ih =>
    intro c' hc'
    simp only [capitalizeFrom, List.mem_cons] at hc'
    rcases hc' with e | hc'
    · subst e
      have hc : c ≠ '_' := h c (List.mem_cons_self _ _)
      split
      · exact char_toUpper_ne_underscore c hc
      · exact hc
    · exact ih _ (fun c'' hm => h c'' (List.mem_cons_of_mem _ hm)) c' hc'

theorem formatKey_eq (key : String) :
    formatKey key = ⟨capitalizeFrom false (spacedChars key)⟩ := by
  simp only [formatKey, capitalizeWords, replaceUnderscores, String.map_eq, spacedChars]

theorem spacedChars_no_underscore (key : String) : ∀ c ∈ spacedChars key, c ≠ '_' := by
  intro c hc
  simp only [spacedChars, List.mem_map] at hc
  obtain ⟨c₀, _, e⟩ := hc
  subst e
  split
  · decide
  · assumption

theorem map_space_of_no_underscore (chars : List Char) (h : ∀ c ∈ chars, c ≠ '_') :
    chars.map (fun c => if c = '_' then ' ' else c) = chars := by
  induction chars with
  | nil => rfl
  | cons c rest ih =>
    have hc : c ≠ '_' := h c (List.mem_cons_self _ _)
    simp only [List.map_cons, hc, if_false,
      ih (fun c' hm => h c' (List.mem_cons_of_mem _ hm))]

theorem formatKey_idem (key : String) : formatKey (formatKey key) = formatKey key := by
  have hno := capitalizeFrom_no_underscore false (spacedChars key) (spacedChars_no_underscore key)
  have e : spacedChars ⟨capitalizeFrom false (spacedChars key)⟩
      = capitalizeFrom false (spacedChars key) :=
    map_space_of_no_underscore _ hno
  rw [formatKey_eq (formatKey key), formatKey_eq key, e, capitalizeFrom_idem]

theorem formatKey_get (key : String) (i : Nat) :
    (formatKey key).data.get? i
      = ((spacedChars key).get? i).map (fun c =>
          if startsWord (spacedChars key) i then c.toUpper else c) := by
  rw [formatKey_eq, capitalizeFrom_get]
  cases hc : (spacedChars key).get? i with
  | none => rfl
  | some c =>
    simp only [Option.map_some', startsWord, hc, Bool.not_false]

/-! ## Snapshot cache and badge retrieval: the claims -/

/-- Claim C1, refuted as stated: generate-badge, asked for the feature `platform` on a
payload whose `platform` field is a number, stores a record whose `platform` is that
number; a retrieval of the fresh entry makes the renderer throw and the answer has
status 500, neither 200 nor 404. -/
theorem badge_retrieval_server_error_counterexample :
    generateBadgeHandler sampleUpstreamOddPlatform (some [sampleRequestOddPlatform])
        "c4d9" 1000 StatsCache.empty
      = (.created ("http://localhost:8000/badge/" ++ "c4d9") "c4d9", sampleCacheOddPlatform) ∧
    sampleCacheOddPlatform.get "c4d9" = some ⟨[sampleRecordOddPlatform], 1000⟩ ∧
    (2000 : Int) - 1000 ≤ 3600000 ∧
    badgeHandler sampleCacheOddPlatform "c4d9" 2000 sampleClock
      = ⟨500, none, "Something broke! Check the server logs."⟩ :=
  ⟨rfl, by decide, by decide, rfl⟩

/-- Claim C1, amended. For every cache state, key and time `now`: badge retrieval answers
200 with the rendered SVG exactly when the cache holds an entry for the key with
`now - timestamp <= 3600000` whose records each carry a string `platform`; it answers 404
with the body `Badge not found or expired` exactly when the key is absent or
`now - timestamp > 3600000`; for an entry with `now - timestamp <= 3600000` that holds a
record without a string `platform` the renderer throws and the answer is the 500 of the
error handler; no other status is produced. -/
theorem badge_retrieval_status (cache : StatsCache) (statsKey : String) (now : Int)
    (clock : Nat → String) :
    ((cache.get statsKey = none ∨
        ∃ entry, cache.get statsKey = some entry ∧ now - entry.timestamp > 3600000) →
      badgeHandler cache statsKey now clock = ⟨404, none, "Badge not found or expired"⟩) ∧
    (∀ entry, cache.get statsKey = some entry → now - entry.timestamp ≤ 3600000 →
      (∀ r ∈ entry.stats, IsStatRecord r) →
      ∃ svg, generateStatsBadgeSVG entry.stats clock = .ok svg ∧
        badgeHandler cache statsKey now clock = ⟨200, some "image/svg+xml", svg⟩) ∧
    (∀ entry, cache.get statsKey = some entry → now - entry.timestamp ≤ 3600000 →
      (∃ r ∈ entry.stats, ¬ IsStatRecord r) →
      badgeHandler cache statsKey now clock
        = ⟨500, none, "Something broke! Check the server logs."⟩) ∧
    ((badgeHandler cache statsKey now clock).status = 200 ↔
      ∃ entry, cache.get statsKey = some entry ∧ now - entry.timestamp ≤ 3600000 ∧
        ∀ r ∈ entry.stats, IsStatRecord r) ∧
    ((badgeHandler cache statsKey now clock).status = 404 ↔
      (cache.get statsKey = none ∨
        ∃ entry, cache.get statsKey = some entry ∧ now - entry.timestamp > 3600000)) ∧
    ((badgeHandler cache statsKey now clock).status = 200 ∨
      (badgeHandler cache statsKey now clock).status = 404 ∨
      (badgeHandler cache statsKey now clock).status = 500) := by
  have hmiss : (cache.get statsKey = none ∨
        ∃ entry, cache.get statsKey = some entry ∧ now - entry.timestamp > 3600000) →
      badgeHandler cache statsKey now clock = badgeNotFound := by
    rintro (hnone | ⟨entry, hget, hold⟩)
    · exact badgeHandler_of_absent cache statsKey now clock hnone
    · exact badgeHandler_of_expired cache statsKey now clock entry hget hold
  have hgood : ∀ entry, cache.get statsKey = some entry → now - entry.timestamp ≤ 3600000 →
      (∀ r ∈ entry.stats, IsStatRecord r) →
      ∃ svg, generateStatsBadgeSVG entry.stats clock = .ok svg ∧
        badgeHandler cache statsKey now clock = ⟨200, some "image/svg+xml", svg⟩ := by
    intro entry hget hle hrec
    have hsvg := generateStatsBadgeSVG_of_statRecords entry.stats clock hrec
    refine ⟨_, hsvg, ?_⟩
    rw [badgeHandler_of_fresh cache statsKey now clock entry hget hle, hsvg]
    rfl
  have hbad : ∀ entry, cache.get statsKey = some entry → now - entry.timestamp ≤ 3600000 →
      (∃ r ∈ entry.stats, ¬ IsStatRecord r) →
      badgeHandler cache statsKey now clock
        = ⟨500, none, "Something broke! Check the server logs."⟩ := by
    intro entry hget hle hrec
    obtain ⟨e, he⟩ := generateStatsBadgeSVG_of_not_statRecord entry.stats clock hrec
    rw [badgeHandler_of_fresh cache statsKey now clock entry hget hle, he]
    rfl
  have hcases : (cache.get statsKey = none ∨
        ∃ entry, cache.get statsKey = some entry ∧ now - entry.timestamp > 3600000) ∨
      (∃ entry, cache.get statsKey = some entry ∧ now - entry.timestamp ≤ 3600000 ∧
        ∀ r ∈ entry.stats, IsStatRecord r) ∨
      (∃ entry, cache.get statsKey = some entry ∧ now - entry.timestamp ≤ 3600000 ∧
        ∃ r ∈ entry.stats, ¬ IsStatRecord r) := by
    cases hget : cache.get statsKey with
    | none => exact Or.inl (Or.inl rfl)
    | some entry =>
      by_cases hle : now - entry.timestamp ≤ 3600000
      · by_cases hrec : ∀ r ∈ entry.stats, IsStatRecord r
        · exact Or.inr (Or.inl ⟨entry, rfl, hle, hrec⟩)
        · refine Or.inr (Or.inr ⟨entry, rfl, hle, ?_⟩)
          by_contra hno
          exact hrec (fun r hr => by
            by_contra hn
            exact hno ⟨r, hr, hn⟩)
      · exact Or.inl (Or.inr ⟨entry, rfl, by omega⟩)
  refine ⟨?_, hgood, hbad, ?_, ?_, ?_⟩
  · intro h
    rw [hmiss h]; rfl
  · constructor
    · intro hs
      rcases hcases with h | h | ⟨entry, hget, hle, hrec⟩
      · rw [hmiss h] at hs
        exact absurd hs (by decide)
      · exact h
      · rw [hbad entry hget hle hrec] at hs
        exact absurd hs (by decide)
    · rintro ⟨entry, hget, hle, hrec⟩
      obtain ⟨svg, _, hresp⟩ := hgood entry hget hle hrec
      rw [hresp]
  · constructor
    · intro hs
      rcases hcases with h | ⟨entry, hget, hle, hrec⟩ | ⟨entry, hget, hle, hrec⟩
      · exact h
      · obtain ⟨svg, _, hresp⟩ := hgood entry hget hle hrec
        rw [hresp] at hs
        exact absurd hs (show (200 : Nat) ≠ 404 by decide)
      · rw [hbad entry hget hle hrec] at hs
        exact absurd hs (by decide)
    · intro h
      rw [hmiss h]; rfl
  · rcases hcases with h | ⟨entry, hget, hle, hrec⟩ | ⟨entry, hget, hle, hrec⟩
    · right; left; rw [hmiss h]; rfl
    · obtain ⟨svg, _, hresp⟩ := hgood entry hget hle hrec
      left; rw [hresp]
    · right; right; rw [hbad entry hget hle hrec]

/-- The cache `sampleCache` read at time `2000`, one second after its snapshot of a stat
record was stored: the amended claim C1 at a concrete input. -/
theorem badge_retrieval_status_witness :
    sampleCache.get "a3f1" = some ⟨[sampleRecord], 1000⟩ ∧
    (2000 : Int) - 1000 ≤ 3600000 ∧
    (∀ r ∈ [sampleRecord], IsStatRecord r) ∧
    (∃ svg, generateStatsBadgeSVG [sampleRecord] sampleClock = .ok svg ∧
      badgeHandler sampleCache "a3f1" 2000 sampleClock = ⟨200, some "image/svg+xml", svg⟩) ∧
    (badgeHandler sampleCache "zzzz" 2000 sampleClock
      = ⟨404, none, "Badge not found or expired"⟩) :=
  ⟨sampleCache_get, by decide,
    statRecords_of_get sampleCache "a3f1" _ sampleCache_holdsStatRecords sampleCache_get,
    (badge_retrieval_status sampleCache "a3f1" 2000 sampleClock).2.1 ⟨[sampleRecord], 1000⟩
      sampleCache_get (by decide)
      (statRecords_of_get sampleCache "a3f1" _ sampleCache_holdsStatRecords sampleCache_get),
    (badge_retrieval_status sampleCache "zzzz" 2000 sampleClock).1 (Or.inl (by decide))⟩

/-- Claim C2. Round trip: for every list of stat records `s`, every prior cache state and
every key, once generate-badge has stored `s` under the key it returns, a lookup of that
key at the same instant finds an entry whose stats are `s`, and badge retrieval renders
exactly `s`; the handler stores, under the key it returns, the results it collected. -/
theorem generate_badge_round_trip (cache : StatsCache) (statsKey : String)
    (s : List JSObject) (now : Int) (clock : Nat → String) :
    (storeStats cache statsKey s now).get statsKey = some ⟨s, now⟩ ∧
    badgeHandler (storeStats cache statsKey s now) statsKey now clock
      = sendBadge (generateStatsBadgeSVG s clock) ∧
    (∀ (up : Upstream) (first : PlatformInfo) (others : List PlatformInfo),
      awaitAll (badgeStatsFor up) (first :: others) = .ok s →
      generateBadgeHandler up (some (first :: others)) statsKey now cache
        = (.created ("http://localhost:8000/badge/" ++ statsKey) statsKey,
            storeStats cache statsKey s now)) := by
  have hget : (storeStats cache statsKey s now).get statsKey = some ⟨s, now⟩ :=
    cache_get_set_self cache statsKey ⟨s, now⟩
  refine ⟨hget, ?_, ?_⟩
  · exact badgeHandler_of_fresh _ statsKey now clock ⟨s, now⟩ hget (by simp)
  · intro up first others hs
    simp [generateBadgeHandler, hs]

/-- Generate-badge run on `sampleRequest` from the empty cache: claim C2 at a concrete
input. -/
theorem generate_badge_round_trip_witness :
    awaitAll (badgeStatsFor sampleUpstream) [sampleRequest] = .ok [sampleRecord] ∧
    generateBadgeHandler sampleUpstream (some [sampleRequest]) "a3f1" 1000 StatsCache.empty
      = (.created ("http://localhost:8000/badge/" ++ "a3f1") "a3f1",
          storeStats StatsCache.empty "a3f1" [sampleRecord] 1000) :=
  ⟨rfl, (generate_badge_round_trip StatsCache.empty "a3f1" [sampleRecord] 1000
    sampleClock).2.2 sampleUpstream sampleRequest [] rfl⟩

/-- Claim C3, refuted as stated: a snapshot stored at time `1000` and read at time
`3601000`, exactly one hour later and with no sweep in between, is still served with
status 200. -/
theorem expiry_at_ttl_counterexample :
    sampleCache.get "a3f1" = some ⟨[sampleRecord], 1000⟩ ∧
    (3601000 : Int) - 1000 ≥ 3600000 ∧
    (badgeHandler sampleCache "a3f1" 3601000 sampleClock).status = 200 := by
  refine ⟨sampleCache_get, by decide, ?_⟩
  rw [badgeHandler_of_fresh sampleCache "a3f1" 3601000 sampleClock _ sampleCache_get
      (by decide),
    generateStatsBadgeSVG_of_statRecords _ sampleClock
      (statRecords_of_get sampleCache "a3f1" _ sampleCache_holdsStatRecords sampleCache_get)]
  rfl

/-- Claim C3, amended. For every snapshot stored at time `t` and still in the map, every
read at a time `now` with `now - t > 3600000` treats the key as absent: the answer is the
404 of a missing badge, whether or not a sweep has run. -/
theorem expired_snapshot_not_served (cache : StatsCache) (statsKey : String)
    (entry : CacheEntry) (now : Int) (clock : Nat → String)
    (hget : cache.get statsKey = some entry) (hold : now - entry.timestamp > 3600000) :
    badgeHandler cache statsKey now clock = ⟨404, none, "Badge not found or expired"⟩ := by
  rw [badgeHandler_of_expired cache statsKey now clock entry hget hold]; rfl

/-- The snapshot of `sampleCache` read one millisecond after the hour. -/
theorem expired_snapshot_not_served_witness :
    sampleCache.get "a3f1" = some ⟨[sampleRecord], 1000⟩ ∧
    (3601001 : Int) - 1000 > 3600000 ∧
    badgeHandler sampleCache "a3f1" 3601001 sampleClock
      = ⟨404, none, "Badge not found or expired"⟩ :=
  ⟨sampleCache_get, by decide,
    expired_snapshot_not_served sampleCache "a3f1" ⟨[sampleRecord], 1000⟩ 3601001 sampleClock
      sampleCache_get (by decide)⟩

/-- Claim C7. For every cache state and every time `now`, after the periodic sweep the
cache holds exactly the entries present before with `now - timestamp <= 3600000`, in
their order and each with its stats and timestamp unchanged; every entry with
`now - timestamp > 3600000` is gone. -/
theorem sweep_keeps_exactly_fresh (cache : StatsCache) (now : Int) :
    (sweep cache now).entries
      = cache.entries.filter (fun kv => decide (now - kv.2.timestamp ≤ 3600000)) ∧
    (∀ key entry, (sweep cache now).get key = some entry ↔
      (cache.get key = some entry ∧ now - entry.timestamp ≤ 3600000)) ∧
    (∀ key entry, cache.get key = some entry → now - entry.timestamp > 3600000 →
      (sweep cache now).get key = none) := by
  refine ⟨sweep_entries cache now, ?_, ?_⟩
  · intro key entry
    rw [sweep_get]
    cases hget : cache.get key with
    | none => simp [Option.filter]
    | some e =>
      by_cases hle : now - e.timestamp ≤ 3600000
      · simp only [Option.filter, hle, decide_True, if_true, Option.some.injEq]
        constructor
        · intro h; subst h; exact ⟨rfl, hle⟩
        · intro h; exact h.1
      · simp only [Option.filter, hle, decide_False, Option.some.injEq]
        constructor
        · intro h; simp at h
        · intro h; exact absurd (h.1 ▸ h.2) hle
  · intro key entry hget hold
    rw [sweep_get, hget]
    have hle : ¬ now - entry.timestamp ≤ 3600000 := by omega
    simp [Option.filter, hle]

/-- A sweep at time `3601001` of `sampleCache`: the entry stored at `1000` is removed. -/
theorem sweep_keeps_exactly_fresh_witness :
    sampleCache.get "a3f1" = some ⟨[sampleRecord], 1000⟩ ∧
    (3601001 : Int) - 1000 > 3600000 ∧
    (sweep sampleCache 3601001).get "a3f1" = none :=
  ⟨sampleCache_get, by decide,
    (sweep_keeps_exactly_fresh sampleCache 3601001).2.2 "a3f1" ⟨[sampleRecord], 1000⟩
      sampleCache_get (by decide)⟩

/-- Claim C8, refuted as stated: an insertion by generate-badge under a key the cache
already holds replaces the stats and the timestamp stored under that key. -/
theorem insertion_on_existing_key_counterexample :
    sampleCache.get "a3f1" = some ⟨[sampleRecord], 1000⟩ ∧
    (CacheOp.apply sampleCache (.insert "a3f1" [sampleRecordLeetcode] 5000)).get "a3f1"
      = some ⟨[sampleRecordLeetcode], 5000⟩ ∧
    (⟨[sampleRecordLeetcode], 5000⟩ : CacheEntry) ≠ ⟨[sampleRecord], 1000⟩ := by
  refine ⟨sampleCache_get, cache_get_set_self _ _ _, by decide⟩

/-- Claim C8, amended. Snapshot immutability: for every cache state and every cache
operation (an insertion by generate-badge under a key the cache does not hold yet, a
lookup by badge retrieval, a periodic sweep), every key present both before and after the
operation maps to the same stats and the same timestamp. -/
theorem snapshots_immutable (cache : StatsCache) (op : CacheOp)
    (hfresh : op.InsertsFreshKey cache) (key : String) (before after : CacheEntry)
    (hbefore : cache.get key = some before)
    (hafter : (op.apply cache).get key = some after) :
    after.stats = before.stats ∧ after.timestamp = before.timestamp := by
  have heq : after = before := by
    cases op with
    | insert statsKey statsResults now =>
      have hne : key ≠ statsKey := by
        intro e
        subst e
        simp only [CacheOp.InsertsFreshKey] at hfresh
        rw [hfresh] at hbefore
        exact absurd hbefore (by simp)
      simp only [CacheOp.apply, storeStats] at hafter
      rw [cache_get_set_other cache statsKey key _ hne, hbefore] at hafter
      exact (Option.some.inj hafter).symm
    | lookup statsKey now =>
      simp only [CacheOp.apply] at hafter
      rw [hbefore] at hafter
      exact (Option.some.inj hafter).symm
    | sweep now =>
      simp only [CacheOp.apply] at hafter
      have := sweep_keeps_fresh_get cache now key after hafter
      rw [hbefore] at this
      exact (Option.some.inj this).symm
  subst heq
  exact ⟨rfl, rfl⟩

/-- An insertion under the new key `b7c2` leaves the snapshot under `a3f1` as it was. -/
theorem snapshots_immutable_witness :
    (CacheOp.insert "b7c2" [sampleRecordLeetcode] 5000).InsertsFreshKey sampleCache ∧
    sampleCache.get "a3f1" = some ⟨[sampleRecord], 1000⟩ ∧
    (CacheOp.apply sampleCache (.insert "b7c2" [sampleRecordLeetcode] 5000)).get "a3f1"
      = some ⟨[sampleRecord], 1000⟩ ∧
    (⟨[sampleRecord], 1000⟩ : CacheEntry).stats = [sampleRecord] :=
  ⟨show sampleCache.get "b7c2" = none by decide, sampleCache_get, by decide,
    (snapshots_immutable sampleCache (.insert "b7c2" [sampleRecordLeetcode] 5000)
      (show sampleCache.get "b7c2" = none by decide) "a3f1" ⟨[sampleRecord], 1000⟩ ⟨[sampleRecord], 1000⟩ sampleCache_get
      (by decide)).1⟩

/-! ## Badge layout: the claims -/

/-- Claim C4. For every list of `N` stat records, each carrying a `platform` key,
`generateStatsBadgeSVG` returns the markup that opens with the `svg` element of declared
width `N × 350` and holds one panel per record, in order, whose background rectangle has
height `100 + 20 + 30 + 25 × featureCount`, where `featureCount` is the number of keys of
that record other than `platform`; the texts of the opening element and of the
rectangle are spelled out. -/
theorem badge_width_and_panel_heights (stats : List JSObject) (clock : Nat → String)
    (h : ∀ r ∈ stats, IsStatRecord r) :
    generateStatsBadgeSVG stats clock
      = .ok (svgOpen ((stats.length : Int) * 350) ++
          (concatAll (stats.enum.map (fun ir =>
            badgeBackground (ir.1 * PLATFORM_WIDTH)
                (100 + 20 + 30 + 25 * (featureCount ir.2 : Int))
              ++ panelTail ir.1 ir.2 (clock ir.1))) ++ "</svg>")) ∧
    (∀ totalWidth : Int, svgOpen totalWidth =
      "\n" ++
      "        <svg xmlns=\"http://www.w3.org/2000/svg\" width=\"" ++
      toString totalWidth ++
      "\" height=\"auto\" viewBox=\"0 0 " ++
      toString totalWidth ++
      " auto\">\n" ++
      "            <style>\n" ++
      "                .badge-bg \x7b fill: #f6f8fa; \x7d\n" ++
      "                .platform-title \x7b font-family: -apple-system, BlinkMacSystemFont, \x27Segoe UI\x27, Roboto, Oxygen, Ubuntu, Cantarell, \x27Open Sans\x27, \x27Helvetica Neue\x27, sans-serif; \x7d\n" ++
      "                .title \x7b font-size: 16px; font-weight: bold; fill: #24292e; \x7d\n" ++
      "                .subtitle \x7b font-size: 12px; fill: #6a737d; \x7d\n" ++
      "                .stat-label \x7b font-size: 12px; fill: #6a737d; \x7d\n" ++
      "                .stat-value \x7b font-size: 14px; font-weight: bold; fill: #24292e; \x7d\n" ++
      "            </style>\n" ++
      "    ") ∧
    (∀ xOffset platformHeight : Int, badgeBackground xOffset platformHeight =
      "\n" ++
      "            <rect \n" ++
      "                x=\"" ++
      toString xOffset ++
      "\" y=\"0\" \n" ++
      "                width=\"" ++
      "350" ++
      "\" \n" ++
      "                height=\"" ++
      toString platformHeight ++
      "\" \n" ++
      "                class=\"badge-bg\" \n" ++
      "                rx=\"6\" \n" ++
      "                ry=\"6\" \n" ++
      "                stroke=\"#e1e4e8\" \n" ++
      "                stroke-width=\"1\"\n" ++
      "            />") := by
  refine ⟨?_, fun _ => rfl, fun _ _ => rfl⟩
  rw [generateStatsBadgeSVG_of_statRecords stats clock h]
  have hmap : stats.enum.map (fun ir =>
        badgeBackground (ir.1 * PLATFORM_WIDTH)
            (BASE_HEIGHT + (((ir.2.keys.length : Int) - 1) * FEATURE_HEIGHT)
              + PADDING_TOP + PADDING_BOTTOM)
          ++ panelTail ir.1 ir.2 (clock ir.1))
      = stats.enum.map (fun ir =>
        badgeBackground (ir.1 * PLATFORM_WIDTH)
            (100 + 20 + 30 + 25 * (featureCount ir.2 : Int))
          ++ panelTail ir.1 ir.2 (clock ir.1)) := by
    apply List.map_congr_left
    intro ir hir
    have hr : IsStatRecord ir.2 := h ir.2 (List.snd_mem_of_mem_enum hir)
    have hk := keys_length_of_statRecord ir.2 hr
    have hh : BASE_HEIGHT + (((ir.2.keys.length : Int) - 1) * FEATURE_HEIGHT)
          + PADDING_TOP + PADDING_BOTTOM
        = 100 + 20 + 30 + 25 * (featureCount ir.2 : Int) := by
      simp only [BASE_HEIGHT, FEATURE_HEIGHT, PADDING_TOP, PADDING_BOTTOM, hk]
      ring
    rw [hh]
  have hw : PLATFORM_WIDTH * (stats.length : Int) = (stats.length : Int) * 350 := by
    simp only [PLATFORM_WIDTH]; ring
  rw [hmap, hw]

/-- Two stat records, with two features and one feature: the markup declares the width
700 and the rectangles have the heights 200 and 175. Claim C4 at a concrete input. -/
theorem badge_width_and_panel_heights_witness :
    (∀ r ∈ [sampleRecord, sampleRecordLeetcode], IsStatRecord r) ∧
    generateStatsBadgeSVG [sampleRecord, sampleRecordLeetcode] sampleClock
      = .ok (svgOpen ((([sampleRecord, sampleRecordLeetcode] : List JSObject).length : Int) * 350) ++
          (concatAll ([sampleRecord, sampleRecordLeetcode].enum.map (fun ir =>
            badgeBackground (ir.1 * PLATFORM_WIDTH)
                (100 + 20 + 30 + 25 * (featureCount ir.2 : Int))
              ++ panelTail ir.1 ir.2 (sampleClock ir.1))) ++ "</svg>")) ∧
    (([sampleRecord, sampleRecordLeetcode] : List JSObject).length : Int) * 350 = 700 ∧
    (100 + 20 + 30 + 25 * (featureCount sampleRecord : Int) = 200) ∧
    (100 + 20 + 30 + 25 * (featureCount sampleRecordLeetcode : Int) = 175) :=
  ⟨sampleRecords_areStatRecords,
    (badge_width_and_panel_heights [sampleRecord, sampleRecordLeetcode] sampleClock
      sampleRecords_areStatRecords).1,
    by decide, by decide, by decide⟩

/-- Claim C10. For every list of `N` stat records, the markup opens with the `svg`
element of declared width `350 × N` and the panel of the record at index `i` has its
background rectangle at `x = i × 350`, `y = 0`, with width 350; panels follow one another
left to right in input order, the horizontal extents `[350i, 350i + 350)` of two
different panels do not overlap, and every panel lies inside the declared image width
`350 × N`. -/
theorem panels_side_by_side (stats : List JSObject) (clock : Nat → String)
    (h : ∀ r ∈ stats, IsStatRecord r) :
    generateStatsBadgeSVG stats clock
      = .ok (svgOpen (350 * (stats.length : Int)) ++
          (concatAll (stats.enum.map (fun ir =>
            badgeBackground ((ir.1 : Int) * 350)
                (BASE_HEIGHT + (((ir.2.keys.length : Int) - 1) * FEATURE_HEIGHT)
                  + PADDING_TOP + PADDING_BOTTOM)
              ++ panelTail ir.1 ir.2 (clock ir.1))) ++ "</svg>")) ∧
    (∀ totalWidth : Int, svgOpen totalWidth =
      "\n" ++
      "        <svg xmlns=\"http://www.w3.org/2000/svg\" width=\"" ++
      toString totalWidth ++
      "\" height=\"auto\" viewBox=\"0 0 " ++
      toString totalWidth ++
      " auto\">\n" ++
      "            <style>\n" ++
      "                .badge-bg \x7b fill: #f6f8fa; \x7d\n" ++
      "                .platform-title \x7b font-family: -apple-system, BlinkMacSystemFont, \x27Segoe UI\x27, Roboto, Oxygen, Ubuntu, Cantarell, \x27Open Sans\x27, \x27Helvetica Neue\x27, sans-serif; \x7d\n" ++
      "                .title \x7b font-size: 16px; font-weight: bold; fill: #24292e; \x7d\n" ++
      "                .subtitle \x7b font-size: 12px; fill: #6a737d; \x7d\n" ++
      "                .stat-label \x7b font-size: 12px; fill: #6a737d; \x7d\n" ++
      "                .stat-value \x7b font-size: 14px; font-weight: bold; fill: #24292e; \x7d\n" ++
      "            </style>\n" ++
      "    ") ∧
    (∀ xOffset platformHeight : Int, badgeBackground xOffset platformHeight =
      "\n" ++
      "            <rect \n" ++
      "                x=\"" ++
      toString xOffset ++
      "\" y=\"0\" \n" ++
      "                width=\"" ++
      "350" ++
      "\" \n" ++
      "                height=\"" ++
      toString platformHeight ++
      "\" \n" ++
      "                class=\"badge-bg\" \n" ++
      "                rx=\"6\" \n" ++
      "                ry=\"6\" \n" ++
      "                stroke=\"#e1e4e8\" \n" ++
      "                stroke-width=\"1\"\n" ++
      "            />") ∧
    (∀ i j : Nat, i < j → j < stats.length →
      (i : Int) * 350 + 350 ≤ (j : Int) * 350) ∧
    (∀ i j : Nat, i < stats.length → j < stats.length → i ≠ j →
      (i : Int) * 350 + 350 ≤ (j : Int) * 350 ∨ (j : Int) * 350 + 350 ≤ (i : Int) * 350) ∧
    (∀ i : Nat, i < stats.length →
      0 ≤ (i : Int) * 350 ∧ (i : Int) * 350 + 350 ≤ 350 * (stats.length : Int)) := by
  refine ⟨?_, fun _ => rfl, fun _ _ => rfl, ?_, ?_, ?_⟩
  · rw [generateStatsBadgeSVG_of_statRecords stats clock h]
    rfl
  · intro i j hij _
    omega
  · intro i j _ _ hne
    omega
  · intro i hi
    omega

/-- Two stat records side by side: the markup declares the width 700 and the panels start
at `x = 0` and `x = 350`. Claim C10 at a concrete input. -/
theorem panels_side_by_side_witness :
    (∀ r ∈ [sampleRecord, sampleRecordLeetcode], IsStatRecord r) ∧
    generateStatsBadgeSVG [sampleRecord, sampleRecordLeetcode] sampleClock
      = .ok (svgOpen (350 * (([sampleRecord, sampleRecordLeetcode] : List JSObject).length : Int)) ++
          (concatAll ([sampleRecord, sampleRecordLeetcode].enum.map (fun ir =>
            badgeBackground ((ir.1 : Int) * 350)
                (BASE_HEIGHT + (((ir.2.keys.length : Int) - 1) * FEATURE_HEIGHT)
                  + PADDING_TOP + PADDING_BOTTOM)
              ++ panelTail ir.1 ir.2 (sampleClock ir.1))) ++ "</svg>")) ∧
    (350 * (([sampleRecord, sampleRecordLeetcode] : List JSObject).length : Int) = 700) ∧
    (∀ i : Nat, i < ([sampleRecord, sampleRecordLeetcode] : List JSObject).length →
      0 ≤ (i : Int) * 350 ∧
        (i : Int) * 350 + 350
          ≤ 350 * (([sampleRecord, sampleRecordLeetcode] : List JSObject).length : Int)) :=
  ⟨sampleRecords_areStatRecords,
    (panels_side_by_side [sampleRecord, sampleRecordLeetcode] sampleClock
      sampleRecords_areStatRecords).1,
    by decide,
    (panels_side_by_side [sampleRecord, sampleRecordLeetcode] sampleClock
      sampleRecords_areStatRecords).2.2.2.2.2⟩

/-! ## Feature projection: the claims -/

/-- Claim C5, the code at the failing inputs. The test `fullData[feature] !== undefined`
also finds what the source record inherits: for the request entry that lists
`constructor`, `__proto__` and `followers` on the fetched GitHub record, which has no field
`constructor` of its own, both handlers build a record with the feature keys
`constructor` and `followers`, where `constructor` holds the text of the built-in
function `Object` and is no value of the source record. A field whose name is an array
index is enumerated before the others: the requested list `followers`, `7` on a source
record with both fields gives the feature keys `7`, `followers`, not the order of the
requested list. -/
theorem projection_copies_inherited_member :
    fetchPlatformData sampleUpstream "github" "octocat" = .ok (some sampleFullData) ∧
    sampleRequestInherited.features = some ["constructor", "__proto__", "followers"] ∧
    "constructor" ∉ sampleFullData.keys ∧
    sampleFullData.get "constructor" = JSValue.undefined ∧
    projectBadge sampleRequestInherited (some sampleFullData)
      = .ok (JSObject.ofList
          [("platform", .str "github"),
           ("constructor", .raw "function Object() \x7b [native code] \x7d"),
           ("followers", .num 5)]) ∧
    projectStats sampleRequestInherited (some sampleFullData)
      = .ok (some (JSObject.ofList
          [("platform", .str "github"),
           ("constructor", .raw "function Object() \x7b [native code] \x7d"),
           ("followers", .num 5)])) ∧
    featureKeys (JSObject.ofList
          [("platform", .str "github"),
           ("constructor", .raw "function Object() \x7b [native code] \x7d"),
           ("followers", .num 5)]) = ["constructor", "followers"] ∧
    (∃ r, projectBadge ⟨"github", "octocat", some ["followers", "7"]⟩
          (some (JSObject.ofList [("followers", .num 5), ("7", .num 1)])) = .ok r ∧
        projectStats ⟨"github", "octocat", some ["followers", "7"]⟩
          (some (JSObject.ofList [("followers", .num 5), ("7", .num 1)])) = .ok (some r) ∧
        featureKeys r = ["7", "followers"] ∧
        r.get "followers" = JSValue.num 5 ∧ r.get "7" = JSValue.num 1) :=
  ⟨rfl, rfl, by decide, by decide, rfl, rfl, by decide,
    ⟨JSObject.ofList [("platform", .str "github"), ("followers", .num 5), ("7", .num 1)],
      rfl, rfl, by decide, by decide, by decide⟩⟩

/-- Claim C6, the code at the failing input: for the entry `sampleRequestNoFeatures`, which
has no feature list, generate-stats returns the fetched record as it is, with no
`platform` key, and generate-badge returns a record that holds `platform` alone and none
of the fetched fields. -/
theorem projection_without_feature_list :
    fetchPlatformData sampleUpstream "github" "octocat" = .ok (some sampleFullData) ∧
    projectStats sampleRequestNoFeatures (some sampleFullData) = .ok (some sampleFullData) ∧
    sampleFullData.get "platform" = JSValue.undefined ∧
    projectBadge sampleRequestNoFeatures (some sampleFullData)
      = .ok (JSObject.ofList [("platform", .str "github")]) ∧
    sampleFullData.get "login" = JSValue.str "octocat" ∧
    (JSObject.ofList [("platform", .str "github")]).get "login" = JSValue.undefined :=
  ⟨rfl, rfl, by decide, rfl, by decide, by decide⟩

/-- Claim C9, refuted as stated: a request for the `github` platform that lists `id`
gets a record with the feature key `id`, which is not among the features of the `github`
descriptor. -/
theorem projection_outside_descriptor_counterexample :
    sampleRequestId.features = some ["id", "followers"] ∧
    projectBadge sampleRequestId (some sampleFullData)
      = .ok (JSObject.ofList
          [("platform", .str "github"), ("id", .num 583231), ("followers", .num 5)]) ∧
    "id" ∈ featureKeys (JSObject.ofList
          [("platform", .str "github"), ("id", .num 583231), ("followers", .num 5)]) ∧
    assocGet "github" PLATFORMS = some ⟨"GitHub",
      ["avatar_url", "name", "login", "bio", "public_repos",
       "followers", "following", "created_at", "total_contributions",
       "html_url", "company", "blog", "location", "email", "hireable"]⟩ ∧
    "id" ∉ ["avatar_url", "name", "login", "bio", "public_repos",
       "followers", "following", "created_at", "total_contributions",
       "html_url", "company", "blog", "location", "email", "hireable"] :=
  ⟨rfl, rfl, by decide, rfl, by decide⟩

/-- Claim C9, amended. For every stat record produced by the projection when a feature
list is given, the feature keys of the record are a subset of the requested feature
list, so fetched fields that were not requested are dropped; for a platform with a
descriptor in `PLATFORMS` they are a subset of the descriptor's known feature names
whenever every requested feature is one of them. -/
theorem projection_within_request (platformInfo : PlatformInfo) (features : List String)
    (fullData : JSObject) (hf : platformInfo.features = some features) :
    ∃ r, projectBadge platformInfo (some fullData) = .ok r ∧
      projectStats platformInfo (some fullData) = .ok (some r) ∧
      (∀ k ∈ featureKeys r, k ∈ features) ∧
      (∀ k, k ∉ features → k ∉ featureKeys r) ∧
      (∀ descriptor, assocGet platformInfo.platform PLATFORMS = some descriptor →
        (∀ f ∈ features, f ∈ descriptor.features) →
        ∀ k ∈ featureKeys r, k ∈ descriptor.features) := by
  obtain ⟨r, hb, hs, hsub, _, _⟩ :=
    projection_with_features platformInfo features fullData hf
  refine ⟨r, hb, hs, ?_, ?_, ?_⟩
  · intro k hk
    exact (hsub k hk).1
  · intro k hk hin
    exact hk (hsub k hin).1
  · intro descriptor _ hall k hk
    exact hall k (hsub k hk).1

/-- Two known GitHub features requested on the sample payload: the amended claim C9 at a
concrete input. -/
theorem projection_within_request_witness :
    sampleRequest.features = some ["public_repos", "followers"] ∧
    ∃ r, projectBadge sampleRequest (some sampleFullData) = .ok r ∧
      projectStats sampleRequest (some sampleFullData) = .ok (some r) ∧
      (∀ k ∈ featureKeys r, k ∈ ["public_repos", "followers"]) ∧
      (∀ k, k ∉ ["public_repos", "followers"] → k ∉ featureKeys r) ∧
      (∀ descriptor, assocGet sampleRequest.platform PLATFORMS = some descriptor →
        (∀ f ∈ ["public_repos", "followers"], f ∈ descriptor.features) →
        ∀ k ∈ featureKeys r, k ∈ descriptor.features) :=
  ⟨rfl, projection_within_request sampleRequest ["public_repos", "followers"]
    sampleFullData rfl⟩

/-! ## Rows of a panel: the claims -/

/-- Claim C11. No vertical overlap inside a panel: for every stat record, which carries a
`platform` key and `n >= 0` other keys, the panel is the background rectangle of height
`150 + 25 n`, the header with the subtitle at baseline 60, the `n` feature rows and the
time stamp line at baseline `150 + 25 n - 10`, the texts of these four templates being
spelled out; the text baseline `80 + 25 j` and the divider line `85 + 25 j` of every row
lie strictly below the subtitle baseline and strictly above the time stamp baseline,
which lies inside the background rectangle. -/
theorem rows_between_subtitle_and_timestamp (svgContent : String) (r : JSObject)
    (index : Nat) (localeNow : String) (h : IsStatRecord r) :
    renderPanel svgContent r index localeNow
      = .ok (svgContent ++
          (badgeBackground (index * PLATFORM_WIDTH) (150 + 25 * (featureCount r : Int)) ++
            (panelHeader (index * PLATFORM_WIDTH) (platformName r) ++
              (concatAll ((featureEntries r).enum.map (fun jkv =>
                  featureRow (index * PLATFORM_WIDTH) (80 + 25 * (jkv.1 : Int))
                    (formatKey jkv.2.1) jkv.2.2)) ++
                lastUpdated (index * PLATFORM_WIDTH) (150 + 25 * (featureCount r : Int))
                  localeNow)))) ∧
    (featureEntries r).length = featureCount r ∧
    (∀ xOffset platformHeight : Int, badgeBackground xOffset platformHeight =
      "\n" ++
      "            <rect \n" ++
      "                x=\"" ++
      toString xOffset ++
      "\" y=\"0\" \n" ++
      "                width=\"" ++
      "350" ++
      "\" \n" ++
      "                height=\"" ++
      toString platformHeight ++
      "\" \n" ++
      "                class=\"badge-bg\" \n" ++
      "                rx=\"6\" \n" ++
      "                ry=\"6\" \n" ++
      "                stroke=\"#e1e4e8\" \n" ++
      "                stroke-width=\"1\"\n" ++
      "            />") ∧
    (∀ (xOffset : Int) (platform : String), panelHeader xOffset platform =
      "\n" ++
      "            \n" ++
      "            <!-- Platform Icon (placeholder) -->\n" ++
      "            <rect \n" ++
      "                x=\"" ++
      toString (xOffset + 20) ++
      "\" y=\"" ++
      "20" ++
      "\" \n" ++
      "                width=\"40\" height=\"40\" \n" ++
      "                rx=\"6\" \n" ++
      "                ry=\"6\" \n" ++
      "                fill=\"#" ++
      getColorForPlatform platform ++
      "\"\n" ++
      "            />\n" ++
      "            \n" ++
      "            <!-- Platform Title -->\n" ++
      "            <text \n" ++
      "                x=\"" ++
      toString (xOffset + 70) ++
      "\" y=\"" ++
      "40" ++
      "\" \n" ++
      "                class=\"title platform-title\"\n" ++
      "                font-size=\"16\"\n" ++
      "                font-weight=\"600\"\n" ++
      "            >\n" ++
      "                " ++
      replaceUnderscores platform ++
      "\n" ++
      "            </text>\n" ++
      "            <text \n" ++
      "                x=\"" ++
      toString (xOffset + 70) ++
      "\" y=\"" ++
      "60" ++
      "\" \n" ++
      "                class=\"subtitle platform-title\"\n" ++
      "                font-size=\"12\"\n" ++
      "            >\n" ++
      "                Profile Statistics\n" ++
      "            </text>\n" ++
      "        ") ∧
    (∀ (xOffset yPosition : Int) (formattedKey : String) (value : JSValue),
      featureRow xOffset yPosition formattedKey value =
      "\n" ++
      "                    <text \n" ++
      "                        x=\"" ++
      toString (xOffset + 20) ++
      "\" \n" ++
      "                        y=\"" ++
      toString yPosition ++
      "\" \n" ++
      "                        class=\"stat-label platform-title\"\n" ++
      "                    >\n" ++
      "                        " ++
      formattedKey ++
      "\n" ++
      "                    </text>\n" ++
      "                    <text \n" ++
      "                        x=\"" ++
      toString (xOffset + 320) ++
      "\" \n" ++
      "                        y=\"" ++
      toString yPosition ++
      "\" \n" ++
      "                        class=\"stat-value platform-title\"\n" ++
      "                        text-anchor=\"end\"\n" ++
      "                    >\n" ++
      "                        " ++
      JSValue.toText value ++
      "\n" ++
      "                    </text>\n" ++
      "                    <line \n" ++
      "                        x1=\"" ++
      toString (xOffset + 20) ++
      "\" \n" ++
      "                        y1=\"" ++
      toString (yPosition + 5) ++
      "\" \n" ++
      "                        x2=\"" ++
      toString (xOffset + 320) ++
      "\" \n" ++
      "                        y2=\"" ++
      toString (yPosition + 5) ++
      "\" \n" ++
      "                        stroke=\"#e1e4e8\" \n" ++
      "                        stroke-width=\"0.5\"\n" ++
      "                    />\n" ++
      "                ") ∧
    (∀ (xOffset platformHeight : Int) (localeNow : String),
      lastUpdated xOffset platformHeight localeNow =
      "\n" ++
      "            <text \n" ++
      "                x=\"" ++
      toString (xOffset + 20) ++
      "\" \n" ++
      "                y=\"" ++
      toString (platformHeight - 10) ++
      "\" \n" ++
      "                class=\"subtitle platform-title\"\n" ++
      "                font-size=\"10\"\n" ++
      "            >\n" ++
      "                Last Updated: " ++
      localeNow ++
      "\n" ++
      "            </text>\n" ++
      "        ") ∧
    (∀ j : Nat, j < featureCount r →
      (60 : Int) < 80 + 25 * (j : Int) ∧
      (60 : Int) < (80 + 25 * (j : Int)) + 5 ∧
      80 + 25 * (j : Int) < (150 + 25 * (featureCount r : Int)) - 10 ∧
      (80 + 25 * (j : Int)) + 5 < (150 + 25 * (featureCount r : Int)) - 10) ∧
    (0 : Int) < (150 + 25 * (featureCount r : Int)) - 10 ∧
    (150 + 25 * (featureCount r : Int)) - 10 < 150 + 25 * (featureCount r : Int) := by
  refine ⟨renderPanel_rows svgContent r index localeNow h, featureEntries_length r,
    fun _ _ => rfl, fun _ _ => rfl, fun _ _ _ _ => rfl, fun _ _ _ => rfl,
    ?_, by omega, by omega⟩
  intro j hj
  omega

/-- The panel of `sampleRecord`, which has two features: the rectangle has height 200,
the rows are at the baselines 80 and 105 and the time stamp at 190. Claim C11 at a
concrete input. -/
theorem rows_between_subtitle_and_timestamp_witness :
    IsStatRecord sampleRecord ∧ featureCount sampleRecord = 2 ∧
    renderPanel "" sampleRecord 0 "now"
      = .ok ("" ++
          (badgeBackground ((0 : Nat) * PLATFORM_WIDTH)
              (150 + 25 * (featureCount sampleRecord : Int)) ++
            (panelHeader ((0 : Nat) * PLATFORM_WIDTH) (platformName sampleRecord) ++
              (concatAll ((featureEntries sampleRecord).enum.map (fun jkv =>
                  featureRow ((0 : Nat) * PLATFORM_WIDTH) (80 + 25 * (jkv.1 : Int))
                    (formatKey jkv.2.1) jkv.2.2)) ++
                lastUpdated ((0 : Nat) * PLATFORM_WIDTH)
                  (150 + 25 * (featureCount sampleRecord : Int)) "now")))) ∧
    (150 + 25 * (featureCount sampleRecord : Int) = 200) ∧
    (∀ j : Nat, j < featureCount sampleRecord →
      (60 : Int) < 80 + 25 * (j : Int) ∧
      (60 : Int) < (80 + 25 * (j : Int)) + 5 ∧
      80 + 25 * (j : Int) < (150 + 25 * (featureCount sampleRecord : Int)) - 10 ∧
      (80 + 25 * (j : Int)) + 5 < (150 + 25 * (featureCount sampleRecord : Int)) - 10) :=
  ⟨sampleRecord_isStatRecord, by decide,
    (rows_between_subtitle_and_timestamp "" sampleRecord 0 "now"
      sampleRecord_isStatRecord).1,
    by decide,
    (rows_between_subtitle_and_timestamp "" sampleRecord 0 "now"
      sampleRecord_isStatRecord).2.2.2.2.2.2.1⟩

/-- Claim C12. For every list of stat records, the panel of each record holds exactly one
row per key other than `platform`, in the key order of the record; the `j`-th row
(0-based) has its label at `x = xOffset + 20` and its value, anchored at the end, at
`x = xOffset + 320`, both at baseline `y = 80 + 25 j`, and a divider line from
`xOffset + 20` to `xOffset + 320` at `y = 85 + 25 j`; consecutive rows are 25 units
apart. -/
theorem feature_rows_layout (stats : List JSObject) (clock : Nat → String)
    (h : ∀ r ∈ stats, IsStatRecord r) :
    generateStatsBadgeSVG stats clock
      = .ok (svgOpen (PLATFORM_WIDTH * stats.length) ++
          (concatAll (stats.enum.map (fun ir =>
            badgeBackground (ir.1 * PLATFORM_WIDTH) (150 + 25 * (featureCount ir.2 : Int)) ++
              (panelHeader (ir.1 * PLATFORM_WIDTH) (platformName ir.2) ++
                (concatAll ((featureEntries ir.2).enum.map (fun jkv =>
                    featureRow (ir.1 * PLATFORM_WIDTH) (80 + 25 * (jkv.1 : Int))
                      (formatKey jkv.2.1) jkv.2.2)) ++
                  lastUpdated (ir.1 * PLATFORM_WIDTH) (150 + 25 * (featureCount ir.2 : Int))
                    (clock ir.1))))) ++ "</svg>")) ∧
    (∀ r : JSObject, (featureEntries r).map Prod.fst = featureKeys r) ∧
    (∀ (xOffset yPosition : Int) (formattedKey : String) (value : JSValue),
      featureRow xOffset yPosition formattedKey value =
      "\n" ++
      "                    <text \n" ++
      "                        x=\"" ++
      toString (xOffset + 20) ++
      "\" \n" ++
      "                        y=\"" ++
      toString yPosition ++
      "\" \n" ++
      "                        class=\"stat-label platform-title\"\n" ++
      "                    >\n" ++
      "                        " ++
      formattedKey ++
      "\n" ++
      "                    </text>\n" ++
      "                    <text \n" ++
      "                        x=\"" ++
      toString (xOffset + 320) ++
      "\" \n" ++
      "                        y=\"" ++
      toString yPosition ++
      "\" \n" ++
      "                        class=\"stat-value platform-title\"\n" ++
      "                        text-anchor=\"end\"\n" ++
      "                    >\n" ++
      "                        " ++
      JSValue.toText value ++
      "\n" ++
      "                    </text>\n" ++
      "                    <line \n" ++
      "                        x1=\"" ++
      toString (xOffset + 20) ++
      "\" \n" ++
      "                        y1=\"" ++
      toString (yPosition + 5) ++
      "\" \n" ++
      "                        x2=\"" ++
      toString (xOffset + 320) ++
      "\" \n" ++
      "                        y2=\"" ++
      toString (yPosition + 5) ++
      "\" \n" ++
      "                        stroke=\"#e1e4e8\" \n" ++
      "                        stroke-width=\"0.5\"\n" ++
      "                    />\n" ++
      "                ") ∧
    (∀ j : Nat, (80 + 25 * ((j + 1 : Nat) : Int)) - (80 + 25 * (j : Int)) = 25) := by
  refine ⟨?_, featureEntries_keys, fun _ _ _ _ => rfl, ?_⟩
  · rw [generateStatsBadgeSVG_of_statRecords stats clock h]
    have hmap : stats.enum.map (fun ir =>
          badgeBackground (ir.1 * PLATFORM_WIDTH)
              (BASE_HEIGHT + (((ir.2.keys.length : Int) - 1) * FEATURE_HEIGHT)
                + PADDING_TOP + PADDING_BOTTOM)
            ++ panelTail ir.1 ir.2 (clock ir.1))
        = stats.enum.map (fun ir =>
          badgeBackground (ir.1 * PLATFORM_WIDTH) (150 + 25 * (featureCount ir.2 : Int)) ++
            (panelHeader (ir.1 * PLATFORM_WIDTH) (platformName ir.2) ++
              (concatAll ((featureEntries ir.2).enum.map (fun jkv =>
                  featureRow (ir.1 * PLATFORM_WIDTH) (80 + 25 * (jkv.1 : Int))
                    (formatKey jkv.2.1) jkv.2.2)) ++
                lastUpdated (ir.1 * PLATFORM_WIDTH) (150 + 25 * (featureCount ir.2 : Int))
                  (clock ir.1)))) := by
      apply List.map_congr_left
      intro ir hir
      have hr : IsStatRecord ir.2 := h ir.2 (List.snd_mem_of_mem_enum hir)
      have hh : BASE_HEIGHT + (((ir.2.keys.length : Int) - 1) * FEATURE_HEIGHT)
            + PADDING_TOP + PADDING_BOTTOM = 150 + 25 * (featureCount ir.2 : Int) := by
        rw [keys_length_of_statRecord ir.2 hr]
        simp only [BASE_HEIGHT, FEATURE_HEIGHT, PADDING_TOP, PADDING_BOTTOM]
        ring
      simp only [panelTail, hh, featureRows_eq]
    rw [hmap]
  · intro j
    push_cast
    ring

/-- Two stat records, with two rows and one row: claim C12 at a concrete input. -/
theorem feature_rows_layout_witness :
    (∀ r ∈ [sampleRecord, sampleRecordLeetcode], IsStatRecord r) ∧
    (featureEntries sampleRecord).map Prod.fst = ["public_repos", "followers"] ∧
    generateStatsBadgeSVG [sampleRecord, sampleRecordLeetcode] sampleClock
      = .ok (svgOpen (PLATFORM_WIDTH * ([sampleRecord, sampleRecordLeetcode] : List JSObject).length) ++
          (concatAll ([sampleRecord, sampleRecordLeetcode].enum.map (fun ir =>
            badgeBackground (ir.1 * PLATFORM_WIDTH) (150 + 25 * (featureCount ir.2 : Int)) ++
              (panelHeader (ir.1 * PLATFORM_WIDTH) (platformName ir.2) ++
                (concatAll ((featureEntries ir.2).enum.map (fun jkv =>
                    featureRow (ir.1 * PLATFORM_WIDTH) (80 + 25 * (jkv.1 : Int))
                      (formatKey jkv.2.1) jkv.2.2)) ++
                  lastUpdated (ir.1 * PLATFORM_WIDTH) (150 + 25 * (featureCount ir.2 : Int))
                    (sampleClock ir.1))))) ++ "</svg>")) :=
  ⟨sampleRecords_areStatRecords, by decide,
    (feature_rows_layout [sampleRecord, sampleRecordLeetcode] sampleClock
      sampleRecords_areStatRecords).1⟩

/-! ## Markdown renderer: the claims -/

/-- Claim C13, the code at the failing inputs. A descriptor holds its features as an
array of names, and the label lookup `features[feature]` indexes that array: for the
mapping `github ↦ (constructor ↦ 1, map ↦ 2)`, whose platform key has a descriptor and
whose feature names the descriptor does not list, the bullets are labelled with the
texts of the built-in functions `Array` and `map` and not with the raw feature names;
for the feature names `0` and `length` the labels are the first known feature name and
the number of known features. The first input class is reached through generate-stats
by a request that lists `constructor`. For the mapping of the example, with the features
`public_repos` and `followers`, the text is the one the claim gives. -/
theorem markdown_label_from_array_member :
    assocGet "github" PLATFORMS = some ⟨"GitHub",
      ["avatar_url", "name", "login", "bio", "public_repos",
       "followers", "following", "created_at", "total_contributions",
       "html_url", "company", "blog", "location", "email", "hireable"]⟩ ∧
    generateMarkdownSnippet
        [("github", JSObject.ofList [("constructor", .num 1), ("map", .num 2)])]
      = .ok ("## My Profile Stats\n\n### GitHub\n" ++
          "- function Array() \x7b [native code] \x7d: 1\n" ++
          "- function map() \x7b [native code] \x7d: 2\n\n") ∧
    generateMarkdownSnippet
        [("github", JSObject.ofList [("total", .num 3), ("0", .num 1), ("length", .num 2)])]
      = .ok "## My Profile Stats\n\n### GitHub\n- avatar_url: 1\n- total: 3\n- 15: 2\n\n" ∧
    generateStatsHandler sampleUpstream (some [sampleRequestInherited])
      = .ok [some (JSObject.ofList
            [("platform", .str "github"),
             ("constructor", .raw "function Object() \x7b [native code] \x7d"),
             ("followers", .num 5)])]
          ("## My Profile Stats\n\n### GitHub\n" ++
            "- function Array() \x7b [native code] \x7d: " ++
              "function Object() \x7b [native code] \x7d\n" ++
            "- followers: 5\n\n") ∧
    generateMarkdownSnippet samplePlatformData
      = .ok "## My Profile Stats\n\n### GitHub\n- public_repos: 10\n- followers: 5\n\n" :=
  ⟨rfl, rfl, rfl, rfl, rfl⟩

/-- Claim C14, the code at the failing input: generate-stats groups a result that has no
`platform` key under the property `undefined`, which has no descriptor, and
`generateMarkdownSnippet` then fails with the `TypeError` of reading `.name` of
`undefined`; there is no guard and no error that names an unknown platform. -/
theorem markdown_unknown_platform_type_error :
    groupByPlatform [some sampleFullData] [] = .ok samplePlatformDataUnknown ∧
    assocGet "undefined" PLATFORMS = none ∧
    generateMarkdownSnippet samplePlatformDataUnknown
      = .error "TypeError: Cannot read properties of undefined (reading \x27name\x27)" ∧
    generateMarkdownSnippet [("gitlab", JSObject.ofList [("followers", .num 3)])]
      = .error "TypeError: Cannot read properties of undefined (reading \x27name\x27)" :=
  ⟨rfl, rfl, rfl, rfl⟩

/-! ## Fetcher and request handlers: the claims -/

/-- Claim C15. All-or-nothing on an unsupported platform: `fetchPlatformData` fails with
`Unsupported platform` for every platform identifier other than `github`,
`leetcode_stats` and `leetcode_contests`; for every non-empty request list that contains
an entry with such an identifier, generate-stats and generate-badge answer 500 with an
error and its details, without stats, Markdown, badge URL or key, and generate-badge
leaves the cache as it was, whatever the fetches of the other entries return. -/
theorem unsupported_platform_fails_request :
    (∀ (up : Upstream) (platform username : String),
      platform ≠ "github" → platform ≠ "leetcode_stats" → platform ≠ "leetcode_contests" →
      fetchPlatformData up platform username = .error "Unsupported platform") ∧
    (∀ (up : Upstream) (first : PlatformInfo) (others : List PlatformInfo)
      (statsKey : String) (now : Int) (cache : StatsCache),
      (∃ platformInfo ∈ first :: others,
        platformInfo.platform ≠ "github" ∧ platformInfo.platform ≠ "leetcode_stats" ∧
        platformInfo.platform ≠ "leetcode_contests") →
      (∃ details, generateStatsHandler up (some (first :: others))
          = .failed "Failed to fetch profile stats" details) ∧
      (generateStatsHandler up (some (first :: others))).status = 500 ∧
      (∃ details, generateBadgeHandler up (some (first :: others)) statsKey now cache
          = (.failed "Failed to generate badge" details, cache)) ∧
      (generateBadgeHandler up (some (first :: others)) statsKey now cache).1.status = 500 ∧
      (generateBadgeHandler up (some (first :: others)) statsKey now cache).2 = cache) := by
  refine ⟨fetchPlatformData_unsupported, ?_⟩
  intro up first others statsKey now cache ⟨platformInfo, hmem, h₁, h₂, h₃⟩
  have hfetch := fetchPlatformData_unsupported up platformInfo.platform platformInfo.username
    h₁ h₂ h₃
  obtain ⟨e₁, he₁⟩ := awaitAll_error_of_mem (statsFor up) (first :: others)
    ⟨platformInfo, hmem, "Unsupported platform", by simp [statsFor, hfetch]⟩
  obtain ⟨e₂, he₂⟩ := awaitAll_error_of_mem (badgeStatsFor up) (first :: others)
    ⟨platformInfo, hmem, "Unsupported platform", by simp [badgeStatsFor, hfetch]⟩
  have hs : generateStatsHandler up (some (first :: others))
      = .failed "Failed to fetch profile stats" e₁ := by
    simp only [generateStatsHandler, he₁]
  have hb : generateBadgeHandler up (some (first :: others)) statsKey now cache
      = (.failed "Failed to generate badge" e₂, cache) := by
    simp only [generateBadgeHandler, he₂]
  refine ⟨⟨e₁, hs⟩, ?_, ⟨e₂, hb⟩, ?_, ?_⟩
  · rw [hs]; rfl
  · rw [hb]; rfl
  · rw [hb]

/-- A supported entry followed by a `gitlab` entry, sent while the cache holds a
snapshot: claim C15 at a concrete input. -/
theorem unsupported_platform_fails_request_witness :
    (∃ platformInfo ∈ [sampleRequest, sampleRequestUnsupported],
      platformInfo.platform ≠ "github" ∧ platformInfo.platform ≠ "leetcode_stats" ∧
      platformInfo.platform ≠ "leetcode_contests") ∧
    (generateStatsHandler sampleUpstream (some [sampleRequest, sampleRequestUnsupported])).status
      = 500 ∧
    (generateBadgeHandler sampleUpstream (some [sampleRequest, sampleRequestUnsupported])
      "b7c2" 5000 sampleCache).2 = sampleCache :=
  ⟨⟨sampleRequestUnsupported, by simp, by decide⟩,
    (unsupported_platform_fails_request.2 sampleUpstream sampleRequest
      [sampleRequestUnsupported] "b7c2" 5000 sampleCache
      ⟨sampleRequestUnsupported, by simp, by decide⟩).2.1,
    (unsupported_platform_fails_request.2 sampleUpstream sampleRequest
      [sampleRequestUnsupported] "b7c2" 5000 sampleCache
      ⟨sampleRequestUnsupported, by simp, by decide⟩).2.2.2.2⟩

/-- Claim C16. For every request whose platform list is missing or empty, generate-stats
and generate-badge answer 400 with the error `Platform data is required`, whatever the
upstream services would return; no call of `fetchPlatformData` is started and the cache
stays as it was. -/
theorem empty_platform_list_rejected (up : Upstream) (platforms : Option (List PlatformInfo))
    (statsKey : String) (now : Int) (cache : StatsCache)
    (h : platforms = none ∨ platforms = some []) :
    generateStatsHandler up platforms = .badRequest "Platform data is required" ∧
    (generateStatsHandler up platforms).status = 400 ∧
    generateBadgeHandler up platforms statsKey now cache
      = (.badRequest "Platform data is required", cache) ∧
    (generateBadgeHandler up platforms statsKey now cache).1.status = 400 ∧
    (generateBadgeHandler up platforms statsKey now cache).2 = cache ∧
    fetchesStarted platforms = [] := by
  rcases h with h | h <;> subst h <;>
    exact ⟨rfl, rfl, rfl, rfl, rfl, rfl⟩

/-- An empty platform list sent while the cache holds a snapshot: claim C16 at a concrete
input. -/
theorem empty_platform_list_rejected_witness :
    ((some [] : Option (List PlatformInfo)) = none ∨
      (some [] : Option (List PlatformInfo)) = some []) ∧
    (generateBadgeHandler sampleUpstream (some []) "b7c2" 5000 sampleCache).1.status = 400 ∧
    (generateBadgeHandler sampleUpstream (some []) "b7c2" 5000 sampleCache).2 = sampleCache ∧
    fetchesStarted (some []) = [] :=
  ⟨Or.inr rfl,
    (empty_platform_list_rejected sampleUpstream (some []) "b7c2" 5000 sampleCache
      (Or.inr rfl)).2.2.2.1,
    (empty_platform_list_rejected sampleUpstream (some []) "b7c2" 5000 sampleCache
      (Or.inr rfl)).2.2.2.2.1,
    (empty_platform_list_rejected sampleUpstream (some []) "b7c2" 5000 sampleCache
      (Or.inr rfl)).2.2.2.2.2⟩

/-- Claim C17. For the `github` platform, whenever the profile call succeeds,
`fetchPlatformData` succeeds whether or not the events call does: the result has every
field of the profile data, with its value, plus `total_contributions`, which is `0` when
the events call fails and the number of returned events when it succeeds; a failure of
the profile call fails the fetch. -/
theorem github_fetch_tolerates_events_failure (up : Upstream) (username : String) :
    (∀ data : Option JSObject, up.githubUser username = .ok data →
      ∃ result, fetchPlatformData up "github" username = .ok (some result) ∧
        (∀ k, k ∈ result.keys ↔
          (k ∈ (data.getD JSObject.empty).keys ∨ k = "total_contributions")) ∧
        (∀ k, k ≠ "total_contributions" → result.get k = (data.getD JSObject.empty).get k) ∧
        (∀ e, up.githubEvents username = .error e →
          result.get "total_contributions" = JSValue.num 0) ∧
        (∀ length : Nat, up.githubEvents username = .ok length →
          result.get "total_contributions" = JSValue.num length)) ∧
    (∀ e, up.githubUser username = .error e →
      fetchPlatformData up "github" username = .error e) := by
  refine ⟨?_, ?_⟩
  · intro data hdata
    refine ⟨_, github_fetch_of_profile up username data hdata, ?_, ?_, ?_, ?_⟩
    · intro k
      rw [object_mem_keys_set, spread_empty_mem_keys]
      exact Or.comm
    · intro k hk
      rw [object_get_set_other _ _ _ _ hk, spread_empty_get]
    · intro e he
      rw [object_get_set_self, he]
      rfl
    · intro length he
      rw [object_get_set_self, he]
  · intro e he
    simp only [fetchPlatformData, he, if_true]

/-- The sample profile fetched while the events call fails: claim C17 at a concrete
input. -/
theorem github_fetch_tolerates_events_failure_witness :
    sampleUpstreamNoEvents.githubUser "octocat" = .ok (some sampleProfile) ∧
    sampleUpstreamNoEvents.githubEvents "octocat"
      = .error "Request failed with status code 403" ∧
    ∃ result, fetchPlatformData sampleUpstreamNoEvents "github" "octocat" = .ok (some result) ∧
      (∀ k, k ∈ result.keys ↔
        (k ∈ ((some sampleProfile : Option JSObject).getD JSObject.empty).keys ∨
          k = "total_contributions")) ∧
      (∀ k, k ≠ "total_contributions" →
        result.get k = ((some sampleProfile : Option JSObject).getD JSObject.empty).get k) ∧
      (∀ e, sampleUpstreamNoEvents.githubEvents "octocat" = .error e →
        result.get "total_contributions" = JSValue.num 0) ∧
      (∀ length : Nat, sampleUpstreamNoEvents.githubEvents "octocat" = .ok length →
        result.get "total_contributions" = JSValue.num length) :=
  ⟨rfl, rfl,
    (github_fetch_tolerates_events_failure sampleUpstreamNoEvents "octocat").1
      (some sampleProfile) rfl⟩

/-- Claim C19. For every generate-stats request that contains an entry without a feature
list whose fetched source record has no `platform` field, the handler answers 500 with
the error `Failed to fetch profile stats`, and so returns neither stats nor a Markdown
snippet, also when every fetch succeeded. -/
theorem stats_without_feature_list_fails (up : Upstream) (platforms : List PlatformInfo)
    (platformInfo : PlatformInfo) (fullData : Option JSObject)
    (hmem : platformInfo ∈ platforms) (hf : platformInfo.features = none)
    (hfetch : fetchPlatformData up platformInfo.platform platformInfo.username = .ok fullData)
    (hno : ∀ data, fullData = some data → "platform" ∉ data.keys) :
    (∃ details, generateStatsHandler up (some platforms)
        = .failed "Failed to fetch profile stats" details) ∧
    (generateStatsHandler up (some platforms)).status = 500 := by
  have hex : ∃ details, generateStatsHandler up (some platforms)
      = .failed "Failed to fetch profile stats" details := by
    cases platforms with
    | nil => simp at hmem
    | cons first others =>
      cases hall : awaitAll (statsFor up) (first :: others) with
      | error message =>
        exact ⟨message, by simp only [generateStatsHandler, hall]⟩
      | ok statsResults =>
        obtain ⟨stat, hstat, hres⟩ := awaitAll_mem (statsFor up) _ _ hall platformInfo hmem
        have hstat' : stat = fullData := by
          simp only [statsFor, hfetch, projectStats, hf, Except.ok.injEq] at hres
          exact hres.symm
        subst hstat'
        cases hgroup : groupByPlatform statsResults [] with
        | error message =>
          exact ⟨message, by simp only [generateStatsHandler, hall, hgroup]⟩
        | ok platformData =>
          obtain ⟨_, hkeys⟩ := groupByPlatform_keys statsResults [] platformData hgroup
          obtain ⟨data, hdata, hkey⟩ := hkeys stat hstat
          have hundef : data.get "platform" = JSValue.undefined :=
            object_get_of_not_mem_keys data "platform" (hno data hdata)
          rw [hundef] at hkey
          obtain ⟨pd, hpd, hpd₁⟩ :=
            exists_of_mem_assocKeys _ platformData (hkey (by decide))
          have hnone : assocGet pd.1 PLATFORMS = none := by
            rw [hpd₁]; rfl
          have hinherited : inheritedName pd.1 = none := by
            rw [hpd₁]; rfl
          obtain ⟨message, hmd⟩ :=
            markdownPlatforms_of_unknown platformData "## My Profile Stats\n\n"
              ⟨pd, hpd, hnone, hinherited⟩
          exact ⟨message, by
            simp only [generateStatsHandler, hall, hgroup, generateMarkdownSnippet, hmd]⟩
  obtain ⟨details, hd⟩ := hex
  exact ⟨⟨details, hd⟩, by rw [hd]; rfl⟩

/-- A GitHub entry without a feature list, every fetch succeeding: claim C19 at a concrete
input. -/
theorem stats_without_feature_list_fails_witness :
    sampleRequestNoFeatures ∈ [sampleRequest, sampleRequestNoFeatures] ∧
    sampleRequestNoFeatures.features = none ∧
    fetchPlatformData sampleUpstream sampleRequestNoFeatures.platform
      sampleRequestNoFeatures.username = .ok (some sampleFullData) ∧
    "platform" ∉ sampleFullData.keys ∧
    (generateStatsHandler sampleUpstream
      (some [sampleRequest, sampleRequestNoFeatures])).status = 500 :=
  ⟨by simp, rfl, rfl, by decide,
    (stats_without_feature_list_fails sampleUpstream [sampleRequest, sampleRequestNoFeatures]
      sampleRequestNoFeatures (some sampleFullData) (by simp) rfl rfl
      (fun data hdata => by
        have : data = sampleFullData := (Option.some.inj hdata).symm
        subst this
        decide)).2⟩

/-! ## Row label: the claim -/

/-- Claim C18. For every feature key, the row label is the key with every underscore
replaced by a space and the first character of each word upper-cased, every other
character unchanged and the length preserved; `public_repos` becomes `Public Repos`; the
formatting of an already formatted label returns it unchanged. -/
theorem row_label_format (key : String) :
    (formatKey key).length = key.length ∧
    (∀ i : Nat, (spacedChars key).get? i
      = (key.data.get? i).map (fun c => if c = '_' then ' ' else c)) ∧
    (∀ i : Nat, (formatKey key).data.get? i
      = ((spacedChars key).get? i).map (fun c =>
          if startsWord (spacedChars key) i then c.toUpper else c)) ∧
    formatKey "public_repos" = "Public Repos" ∧
    formatKey (formatKey key) = formatKey key := by
  refine ⟨?_, ?_, formatKey_get key, by rw [formatKey_eq]; decide, formatKey_idem key⟩
  · rw [formatKey_eq]
    simp only [String.length, capitalizeFrom_length, spacedChars, List.length_map]
  · intro i
    simp [spacedChars]

end GitGo
